import Mathlib

/-!
# topTrack: a shallow embedding of `main.go`

The program is one HTTP handler that calls three upstream services in sequence
(charts, lyrics, image search) and reshapes their answers into one JSON document.

Go strings are byte sequences; they are modelled as lists of bytes.  Network calls and
the library codecs whose code is outside the repository are fields of an environment
`Env`; every function that performs outbound calls returns its result together with the
list of calls it issued.  A Go function returning `(T, error)` may also abort with a
runtime panic; the three possibilities are the constructors of `Outcome`.
-/

namespace TopTrack

/-! ## Strings -/

/-- One byte of a Go string. -/
abbrev Byte := Fin 256

/-- Go `string`: an immutable sequence of bytes. -/
abbrev GoString := List Byte

/-- The bytes of an ASCII source literal. -/
def ascii (s : String) : GoString :=
  s.data.map (fun c => Fin.ofNat c.toNat)

/-- Go `fmt.Sprintf` restricted to the verbs the program uses: `%s` is replaced by
the next argument, `%%` by a percent sign, a `%s` without argument by `%!s(MISSING)`;
every other byte of the format is copied. -/
def sprintf : GoString → List GoString → GoString
  | [], _ => []
  | [c], _ => [c]
  | c :: d :: rest, args =>
    if c = 37 then
      if d = 115 then
        match args with
        | a :: args1 => a ++ sprintf rest args1
        | [] => ascii "%!s(MISSING)" ++ sprintf rest []
      else if d = 37 then 37 :: sprintf rest args
      else c :: sprintf (d :: rest) args
    else c :: sprintf (d :: rest) args

/-! ## Slices, errors and outcomes -/

/-- Go slice: `null` is the nil slice, `of xs` a non-nil slice with elements `xs`. -/
inductive GoSlice (α : Type) where
  | null : GoSlice α
  | of (items : List α) : GoSlice α
  deriving DecidableEq, Repr

/-- Elements of a slice; the nil slice has none. -/
def GoSlice.toList {α : Type} : GoSlice α → List α
  | .null => []
  | .of xs => xs

/-- Go `len(s)`. -/
def GoSlice.len {α : Type} (s : GoSlice α) : Nat := s.toList.length

/-- Runtime panics the program can raise. -/
inductive Panic where
  | interfaceConversion : Panic
  | indexOutOfRange (index length : Nat) : Panic
  deriving DecidableEq, Repr

/-- Go `error` values, by origin: `external` errors are returned by library calls
(`http.Get`, `Decode`, `search.JSON`), `errorf` errors are built by `fmt.Errorf` in the
program itself. -/
inductive GoError where
  | external (msg : GoString) : GoError
  | errorf (msg : GoString) : GoError
  deriving DecidableEq, Repr

/-- Go `err.Error()`. -/
def GoError.Error : GoError → GoString
  | .external msg => msg
  | .errorf msg => msg

/-- Result of a Go function of type `(T, error)`: a value with a nil error, a non-nil
error, or a runtime panic. -/
inductive Outcome (α : Type) where
  | ok (value : α) : Outcome α
  | error (err : GoError) : Outcome α
  | panic (p : Panic) : Outcome α
  deriving DecidableEq, Repr

/-- Go `s[i]`: panics when the index is out of range. -/
def GoSlice.index {α : Type} (s : GoSlice α) (i : Nat) : Outcome α :=
  match s.toList[i]? with
  | some x => .ok x
  | none => .panic (.indexOutOfRange i s.len)

/-! ## Data model (`main.go` lines 10-27) -/

/-- The anonymous element type of `LastFmTrack.Image`. -/
structure LastFmImage where
  URL : GoString
  deriving DecidableEq, Repr

structure LastFmTrack where
  Name : GoString
  Artist : GoString
  Image : GoSlice LastFmImage
  deriving DecidableEq, Repr

structure MusixmatchLyrics where
  Lyrics : GoString
  deriving DecidableEq, Repr

structure ArtistInfo where
  Name : GoString
  ImageURL : GoString
  SimilarTo : GoSlice GoString
  deriving DecidableEq, Repr

/-- The anonymous struct `data.Tracks` of `fetchTopTrack`. -/
structure ChartsTracks where
  Track : GoSlice LastFmTrack
  deriving DecidableEq, Repr

/-- The anonymous struct `data` of `fetchTopTrack`. -/
structure ChartsData where
  Tracks : ChartsTracks
  deriving DecidableEq, Repr

/-- The anonymous struct `data.Message.Body` of `fetchLyrics`. -/
structure LyricsBody where
  Lyrics : MusixmatchLyrics
  deriving DecidableEq, Repr

/-- The anonymous struct `data.Message` of `fetchLyrics`. -/
structure LyricsMessage where
  Body : LyricsBody
  deriving DecidableEq, Repr

/-- The anonymous struct `data` of `fetchLyrics`. -/
structure LyricsData where
  Message : LyricsMessage
  deriving DecidableEq, Repr

/-- The anonymous struct `response` of `topTrackHandler`. -/
structure AggregateResponse where
  TopTrack : LastFmTrack
  Lyrics : GoString
  Artist : ArtistInfo
  deriving DecidableEq, Repr

/-- Go `interface{}` values produced by decoding JSON: `nil`, `bool`, `float64` (kept as
its bit pattern), `string`, `[]interface{}` and `map[string]interface{}`. -/
inductive JsonValue where
  | null : JsonValue
  | bool (b : Bool) : JsonValue
  | number (bits : Nat) : JsonValue
  | string (s : GoString) : JsonValue
  | array (items : List JsonValue) : JsonValue
  | object (fields : List (GoString × JsonValue)) : JsonValue

/-- Go `m[key]` on a `map[string]interface{}`: the nil interface when the key is absent. -/
def mapIndex (m : List (GoString × JsonValue)) (key : GoString) : JsonValue :=
  match m.lookup key with
  | some v => v
  | none => .null

/-- Go `v.([]interface{})`. -/
def assertArray : JsonValue → Outcome (GoSlice JsonValue)
  | .array items => .ok (.of items)
  | _ => .panic .interfaceConversion

/-- Go `v.(map[string]interface{})`. -/
def assertObject : JsonValue → Outcome (List (GoString × JsonValue))
  | .object fields => .ok fields
  | _ => .panic .interfaceConversion

/-- Go `v.(string)`. -/
def assertString : JsonValue → Outcome GoString
  | .string s => .ok s
  | _ => .panic .interfaceConversion

/-- Sequencing of Go evaluation: a panic or an error ends the computation. -/
def Outcome.bind {α β : Type} (x : Outcome α) (f : α → Outcome β) : Outcome β :=
  match x with
  | .ok v => f v
  | .error e => .error e
  | .panic p => .panic p

/-! ## The environment: network and library code outside the repository -/

/-- An outbound call. -/
inductive Call where
  | httpGet (url : GoString) : Call
  | searchJSON (params : List (GoString × GoString)) : Call
  deriving DecidableEq, Repr

/-- What the program does not define itself.
* `httpGet url` is `http.Get(url)`: a transport error message, or the response body;
* `decodeCharts` and `decodeLyrics` are `json.NewDecoder(body).Decode(&data)` at the two
  target types: a decode error message, or the filled struct;
* `searchJSON params` is `search.JSON(params)`: an error message, or the decoded map;
* `jsonString` is the string-literal encoding of `encoding/json`. -/
structure Env where
  httpGet : GoString → Except GoString GoString
  decodeCharts : GoString → Except GoString ChartsData
  decodeLyrics : GoString → Except GoString LyricsData
  searchJSON : List (GoString × GoString) → Except GoString (List (GoString × JsonValue))
  jsonString : GoString → GoString

/-- A result together with the outbound calls issued while computing it, oldest first. -/
structure Ran (α : Type) where
  result : Outcome α
  calls : List Call

/-! ## `net/url` (Go standard library) -/

/-- Go `shouldEscape(c, encodeQueryComponent)`: everything except ASCII letters, digits
and `-`, `_`, `.`, `~` is escaped. -/
def shouldEscape (c : Byte) : Bool :=
  if (97 ≤ c.val ∧ c.val ≤ 122) ∨ (65 ≤ c.val ∧ c.val ≤ 90) ∨ (48 ≤ c.val ∧ c.val ≤ 57) then false
  else if c = 45 ∨ c = 95 ∨ c = 46 ∨ c = 126 then false
  else true

/-- Go `upperhex[n]` for `n < 16`, the digits of `"0123456789ABCDEF"`. -/
def upperhex (n : Nat) : Byte :=
  if n < 10 then Fin.ofNat (48 + n) else Fin.ofNat (55 + n)

/-- The escape of one byte in `url.QueryEscape`: a space becomes `+`, any other byte that
should be escaped becomes `%XX` with upper-case hexadecimal digits. -/
def escapeByte (c : Byte) : GoString :=
  if shouldEscape c then
    if c = 32 then [43] else [37, upperhex (c.val / 16), upperhex (c.val % 16)]
  else [c]

/-- Modelled from the spec: the lyrics client passes its inputs "URL-escaped"; the code
calls `url.QueryEscape` of the Go standard library, whose source is not part of the
repository.  This is `escape(s, encodeQueryComponent)` of `net/url`, byte by byte. -/
def QueryEscape (s : GoString) : GoString :=
  s.flatMap escapeByte

/-- Go `ishex`. -/
def ishex (c : Byte) : Bool :=
  (48 ≤ c.val ∧ c.val ≤ 57) ∨ (97 ≤ c.val ∧ c.val ≤ 102) ∨ (65 ≤ c.val ∧ c.val ≤ 70)

/-- Go `unhex`. -/
def unhex (c : Byte) : Nat :=
  if 48 ≤ c.val ∧ c.val ≤ 57 then c.val - 48
  else if 97 ≤ c.val ∧ c.val ≤ 102 then c.val - 97 + 10
  else if 65 ≤ c.val ∧ c.val ≤ 70 then c.val - 65 + 10
  else 0

/-- Go `url.QueryUnescape`: `%XX` is one byte, `+` a space; `none` is the `EscapeError`
for a `%` not followed by two hexadecimal digits. -/
def QueryUnescape : GoString → Option GoString
  | [] => some []
  | c :: rest =>
    if c = 37 then
      match rest with
      | h1 :: h2 :: rest2 =>
        if ishex h1 ∧ ishex h2 then
          (QueryUnescape rest2).map (fun t => Fin.ofNat (unhex h1 * 16 + unhex h2) :: t)
        else none
      | _ => none
    else if c = 43 then (QueryUnescape rest).map (fun t => 32 :: t)
    else (QueryUnescape rest).map (fun t => c :: t)

/-- The pieces of `s` between occurrences of `sep`. -/
def splitBytes (sep : Byte) : GoString → List GoString
  | [] => [[]]
  | c :: rest =>
    if c = sep then [] :: splitBytes sep rest
    else
      match splitBytes sep rest with
      | [] => [[c]]
      | p :: ps => (c :: p) :: ps

/-- Go `strings.Cut(s, sep)` for a one-byte separator: the text before the first `sep` and
the text after it (empty when `sep` does not occur). -/
def cutByte (sep : Byte) : GoString → GoString × GoString
  | [] => ([], [])
  | c :: rest =>
    if c = sep then ([], rest) else ((cutByte sep rest).1.cons c, (cutByte sep rest).2)

/-- One `key=value` setting of a query string, as `url.ParseQuery` reads it: settings that
are empty, contain `;` or do not unescape are dropped. -/
def parseSetting (piece : GoString) : Option (GoString × GoString) :=
  if piece = [] ∨ (59 : Byte) ∈ piece then none
  else
    match QueryUnescape (cutByte 61 piece).1, QueryUnescape (cutByte 61 piece).2 with
    | some k, some v => some (k, v)
    | _, _ => none

/-- Go `url.ParseQuery`, keeping the accepted `(key, value)` settings in order of
appearance. -/
def ParseQuery (query : GoString) : List (GoString × GoString) :=
  (splitBytes 38 query).filterMap parseSetting

/-- The `RawQuery` of `url.Parse(u)`: what follows the first `?` in the part of `u` before
the first `#`. -/
def rawQuery (u : GoString) : GoString :=
  (cutByte 63 (cutByte 35 u).1).2

/-! ## `net/http` and `encoding/json` as used by the handler -/

/-- The state of an `http.ResponseWriter`: the header map, the status code once the
header has been written, and the body written so far. -/
structure ResponseWriter where
  header : List (GoString × GoString)
  status : Option Nat
  body : GoString
  deriving DecidableEq, Repr

/-- The writer a handler starts with. -/
def ResponseWriter.fresh : ResponseWriter :=
  { header := [], status := none, body := [] }

/-- Go `w.Header().Set(key, value)`. -/
def ResponseWriter.setHeader (w : ResponseWriter) (key value : GoString) : ResponseWriter :=
  { w with header := (key, value) :: w.header.filter (fun kv => kv.1 ≠ key) }

/-- Go `w.WriteHeader(code)`: only the first call sets the status. -/
def ResponseWriter.WriteHeader (w : ResponseWriter) (code : Nat) : ResponseWriter :=
  match w.status with
  | none => { w with status := some code }
  | some _ => w

/-- Go `w.Write(b)`: writes the header with status 200 if it is not written yet. -/
def ResponseWriter.Write (w : ResponseWriter) (b : GoString) : ResponseWriter :=
  let w1 := w.WriteHeader 200
  { w1 with body := w1.body ++ b }

/-- Go `http.Error(w, error, code)`: a plain-text reply, the message followed by a
newline. -/
def httpError (w : ResponseWriter) (error : GoString) (code : Nat) : ResponseWriter :=
  let w1 := w.setHeader (ascii "Content-Type") (ascii "text/plain; charset=utf-8")
  let w2 := w1.setHeader (ascii "X-Content-Type-Options") (ascii "nosniff")
  (w2.WriteHeader code).Write (error ++ ascii "\n")

/-- Go `http.StatusInternalServerError`. -/
def StatusInternalServerError : Nat := 500

/-- Go `url.Values`. -/
abbrev Values := List (GoString × List GoString)

/-- Go `Values.Get`: the first value of the key, or the empty string. -/
def Values.Get (v : Values) (key : GoString) : GoString :=
  match v.lookup key with
  | some (x :: _) => x
  | _ => []

/-- The part of `*http.Request` the handler reads: `r.URL.Query()`. -/
structure Request where
  URLQuery : Values

/-- Values separated by commas. -/
def commaJoin : List GoString → GoString
  | [] => []
  | [x] => x
  | x :: y :: rest => x ++ ascii "," ++ commaJoin (y :: rest)

/-- The `encoding/json` text of a slice: `null` for the nil slice. -/
def encodeSlice {α : Type} (enc : α → GoString) : GoSlice α → GoString
  | .null => ascii "null"
  | .of xs => ascii "[" ++ commaJoin (xs.map enc) ++ ascii "]"

/-- The `encoding/json` text of one element of `LastFmTrack.Image`. -/
def encodeImage (env : Env) (i : LastFmImage) : GoString :=
  ascii "\x7b\"#text\":" ++ env.jsonString i.URL ++ ascii "\x7d"

/-- The `encoding/json` text of a `LastFmTrack`. -/
def encodeTrack (env : Env) (t : LastFmTrack) : GoString :=
  ascii "\x7b\"name\":" ++ env.jsonString t.Name ++ ascii ",\"artist\":" ++
    env.jsonString t.Artist ++ ascii ",\"image\":" ++ encodeSlice (encodeImage env) t.Image ++
    ascii "\x7d"

/-- The `encoding/json` text of an `ArtistInfo`. -/
def encodeArtistInfo (env : Env) (a : ArtistInfo) : GoString :=
  ascii "\x7b\"name\":" ++ env.jsonString a.Name ++ ascii ",\"image_url\":" ++
    env.jsonString a.ImageURL ++ ascii ",\"similar_to\":" ++
    encodeSlice env.jsonString a.SimilarTo ++ ascii "\x7d"

/-- The `encoding/json` text of the handler's `response` struct. -/
def encodeResponse (env : Env) (r : AggregateResponse) : GoString :=
  ascii "\x7b\"top_track\":" ++ encodeTrack env r.TopTrack ++ ascii ",\"lyrics\":" ++
    env.jsonString r.Lyrics ++ ascii ",\"artist_info\":" ++ encodeArtistInfo env r.Artist ++
    ascii "\x7d"

/-- Go `json.NewEncoder(w).Encode(v)`: the JSON text followed by a newline. -/
def jsonEncode (env : Env) (w : ResponseWriter) (r : AggregateResponse) : ResponseWriter :=
  w.Write (encodeResponse env r ++ ascii "\n")

/-! ## The program (`main.go` lines 34-151) -/

/-- The shared key constant. -/
def apiKey : GoString := ascii "YOUR_SERPAPI_API_KEY"

/-- The URL built at line 75. -/
def chartsURL (region : GoString) : GoString :=
  sprintf
    (ascii "http://ws.audioscrobbler.com/2.0/?method=geo.gettoptracks&country=%s&api_key=%s&format=json")
    [region, apiKey]

/-- Lines 73-97. -/
def fetchTopTrack (env : Env) (region : GoString) : Ran LastFmTrack :=
  let url := chartsURL region
  match env.httpGet url with
  | .error err => ⟨.error (.external err), [.httpGet url]⟩
  | .ok body =>
    match env.decodeCharts body with
    | .error err => ⟨.error (.external err), [.httpGet url]⟩
    | .ok data =>
      if data.Tracks.Track.len = 0 then
        ⟨.error (.errorf (sprintf (ascii "no top tracks found for the region %s") [region])),
          [.httpGet url]⟩
      else ⟨data.Tracks.Track.index 0, [.httpGet url]⟩

/-- The URL built at line 101. -/
def lyricsURL (trackName artistName : GoString) : GoString :=
  sprintf
    (ascii "https://api.musixmatch.com/ws/1.1/matcher.lyrics.get?format=json&apikey=%s&q_track=%s&q_artist=%s")
    [apiKey, QueryEscape trackName, QueryEscape artistName]

/-- Lines 99-125. -/
def fetchLyrics (env : Env) (trackName artistName : GoString) : Ran GoString :=
  let url := lyricsURL trackName artistName
  match env.httpGet url with
  | .error err => ⟨.error (.external err), [.httpGet url]⟩
  | .ok body =>
    match env.decodeLyrics body with
    | .error err => ⟨.error (.external err), [.httpGet url]⟩
    | .ok data =>
      if data.Message.Body.Lyrics.Lyrics = [] then
        ⟨.error (.errorf (sprintf (ascii "lyrics not found for the track %s by %s")
          [trackName, artistName])), [.httpGet url]⟩
      else ⟨.ok data.Message.Body.Lyrics.Lyrics, [.httpGet url]⟩

/-- The `params` map of lines 131-137. -/
def searchParams (artistName : GoString) : List (GoString × GoString) :=
  [(ascii "q", artistName), (ascii "tbm", ascii "isch"), (ascii "num", ascii "1"),
   (ascii "safe", ascii "active"), (ascii "api_key", apiKey)]

/-- The extraction of lines 145-148: every type assertion and the index are unchecked. -/
def extractArtistInfo (artistName : GoString) (resp : List (GoString × JsonValue)) :
    Outcome ArtistInfo :=
  (assertArray (mapIndex resp (ascii "images_results"))).bind fun results =>
  (results.index 0).bind fun first =>
  (assertObject first).bind fun image =>
  (assertString (mapIndex image (ascii "original"))).bind fun original =>
  .ok { Name := artistName, ImageURL := original, SimilarTo := .null }

/-- Lines 127-151. -/
def fetchArtistInfo (env : Env) (artistName : GoString) : Ran ArtistInfo :=
  let params := searchParams artistName
  match env.searchJSON params with
  | .error err => ⟨.error (.external err), [.searchJSON params]⟩
  | .ok resp => ⟨extractArtistInfo artistName resp, [.searchJSON params]⟩

/-- What one run of the handler leaves behind: the response writer, the panic that ended
the run (if any), and the outbound calls issued. -/
structure Handled where
  w : ResponseWriter
  panicked : Option Panic
  calls : List Call

/-- Lines 34-71. -/
def topTrackHandler (env : Env) (w : ResponseWriter) (r : Request) : Handled :=
  let region := r.URLQuery.Get (ascii "region")
  let top := fetchTopTrack env region
  match top.result with
  | .panic p => ⟨w, some p, top.calls⟩
  | .error err => ⟨httpError w err.Error StatusInternalServerError, none, top.calls⟩
  | .ok topTrack =>
    let lyr := fetchLyrics env topTrack.Name topTrack.Artist
    match lyr.result with
    | .panic p => ⟨w, some p, top.calls ++ lyr.calls⟩
    | .error err =>
      ⟨httpError w err.Error StatusInternalServerError, none, top.calls ++ lyr.calls⟩
    | .ok lyrics =>
      let art := fetchArtistInfo env topTrack.Artist
      match art.result with
      | .panic p => ⟨w, some p, top.calls ++ lyr.calls ++ art.calls⟩
      | .error err =>
        ⟨httpError w err.Error StatusInternalServerError, none,
          top.calls ++ lyr.calls ++ art.calls⟩
      | .ok artistInfo =>
        let response : AggregateResponse :=
          { TopTrack := topTrack, Lyrics := lyrics, Artist := artistInfo }
        let w1 := w.setHeader (ascii "Content-Type") (ascii "application/json")
        ⟨jsonEncode env w1 response, none, top.calls ++ lyr.calls ++ art.calls⟩

/-! ## The replies named by the specification -/

/-- The error reply of the specification: status 500, plain text, the error message as
body (followed by the newline `http.Error` adds). -/
def errorReply (msg : GoString) : ResponseWriter :=
  { header := [(ascii "X-Content-Type-Options", ascii "nosniff"),
               (ascii "Content-Type", ascii "text/plain; charset=utf-8")],
    status := some 500,
    body := msg ++ ascii "\n" }

/-- The success reply of the specification: status 200, `Content-Type: application/json`,
the JSON text of the aggregate as body (followed by the newline `Encode` adds). -/
def successReply (env : Env) (agg : AggregateResponse) : ResponseWriter :=
  { header := [(ascii "Content-Type", ascii "application/json")],
    status := some 200,
    body := encodeResponse env agg ++ ascii "\n" }

/-! ## Concrete upstreams for the examples -/

/-- An upstream whose charts answer decodes to `tracks`, whose lyrics answer decodes to
`lyrics`, and whose image search yields `images`; JSON strings are quoted without
escapes (right for the plain ASCII strings of the examples). -/
def exampleEnv (tracks : GoSlice LastFmTrack) (lyrics : GoString)
    (images : Except GoString (List (GoString × JsonValue))) : Env :=
  { httpGet := fun url => .ok url,
    decodeCharts := fun _ => .ok { Tracks := { Track := tracks } },
    decodeLyrics := fun _ => .ok { Message := { Body := { Lyrics := { Lyrics := lyrics } } } },
    searchJSON := fun _ => images,
    jsonString := fun s => ascii "\"" ++ s ++ ascii "\"" }

/-- A request with the query `region=<region>`. -/
def requestFor (region : GoString) : Request :=
  { URLQuery := [(ascii "region", [region])] }

/-- The track of the end-to-end scenario. -/
def songA : LastFmTrack :=
  { Name := ascii "Song A", Artist := ascii "Artist X", Image := .null }

/-- A second track, listed after `songA` in the examples. -/
def songB : LastFmTrack :=
  { Name := ascii "Song B", Artist := ascii "Artist Y", Image := .of [{ URL := ascii "http://img/b.png" }] }

/-- An image-search answer whose results are the given `original` URLs. -/
def imageResults (urls : List GoString) : List (GoString × JsonValue) :=
  [(ascii "images_results",
    .array (urls.map fun u => .object [(ascii "original", .string u)]))]

/-- The upstream of the end-to-end scenario: the charts list `songA, songB`, the lyrics
`La la la`, and two image results. -/
def scenarioEnv : Env :=
  exampleEnv (.of [songA, songB]) (ascii "La la la")
    (.ok (imageResults [ascii "http://img/1.png", ascii "http://img/2.png"]))

/-- An upstream whose charts answer has an empty track list. -/
def emptyChartsEnv : Env :=
  exampleEnv (.of []) (ascii "La la la") (.ok (imageResults [ascii "http://img/1.png"]))

/-- An upstream whose lyrics answer has an empty lyrics body. -/
def emptyLyricsEnv : Env :=
  exampleEnv (.of [songA]) [] (.ok (imageResults [ascii "http://img/1.png"]))

/-- An upstream whose image search has no result. -/
def emptyImagesEnv : Env :=
  exampleEnv (.of [songA]) (ascii "La la la") (.ok (imageResults []))

/-- An upstream whose image search answers with a map without `images_results`. -/
def noImagesKeyEnv : Env :=
  exampleEnv (.of [songA]) (ascii "La la la") (.ok [])

/-- The shape of an escaped query component: every `%` starts a `%XX` triple of two
hexadecimal digits, and every other byte is `+` or a byte that needs no escape. -/
def isEscapedForm : GoString → Bool
  | [] => true
  | c :: rest =>
    if c = 37 then
      match rest with
      | h1 :: h2 :: rest2 => ishex h1 && ishex h2 && isEscapedForm rest2
      | _ => false
    else (c = 43 || !shouldEscape c) && isEscapedForm rest

/-! ## Basic facts -/

set_option maxRecDepth 100000 in
theorem chartsURL_eq (region : GoString) :
    chartsURL region =
      ascii "http://ws.audioscrobbler.com/2.0/?method=geo.gettoptracks&country=" ++ region ++
        ascii "&api_key=YOUR_SERPAPI_API_KEY&format=json" := by
  rfl

set_option maxRecDepth 100000 in
theorem lyricsURL_eq (trackName artistName : GoString) :
    lyricsURL trackName artistName =
      ascii "https://api.musixmatch.com/ws/1.1/matcher.lyrics.get?format=json&apikey=YOUR_SERPAPI_API_KEY&q_track=" ++
        QueryEscape trackName ++ ascii "&q_artist=" ++ QueryEscape artistName := by
  simp only [lyricsURL, List.append_assoc]
  generalize QueryEscape trackName = a
  generalize QueryEscape artistName = b
  have hb : b = b ++ [] := by simp
  conv => rhs; rw [hb]
  rfl

set_option maxRecDepth 100000 in
theorem noTopTracks_message (region : GoString) :
    sprintf (ascii "no top tracks found for the region %s") [region] =
      ascii "no top tracks found for the region " ++ region := by
  have h : region = region ++ [] := by simp
  conv => rhs; rw [h]
  rfl

set_option maxRecDepth 100000 in
theorem lyricsNotFound_message (trackName artistName : GoString) :
    sprintf (ascii "lyrics not found for the track %s by %s") [trackName, artistName] =
      ascii "lyrics not found for the track " ++ trackName ++ ascii " by " ++ artistName := by
  simp only [List.append_assoc]
  have h : artistName = artistName ++ [] := by simp
  conv => rhs; rw [h]
  rfl

set_option maxRecDepth 100000 in
theorem httpError_fresh (msg : GoString) :
    httpError ResponseWriter.fresh msg StatusInternalServerError = errorReply msg := by
  rfl

set_option maxRecDepth 100000 in
theorem jsonEncode_fresh (env : Env) (agg : AggregateResponse) :
    jsonEncode env (ResponseWriter.fresh.setHeader (ascii "Content-Type") (ascii "application/json"))
      agg = successReply env agg := by
  rfl

theorem fetchTopTrack_calls (env : Env) (region : GoString) :
    (fetchTopTrack env region).calls = [.httpGet (chartsURL region)] := by
  cases hg : env.httpGet (chartsURL region) with
  | error e => simp [fetchTopTrack, hg]
  | ok body =>
    cases hd : env.decodeCharts body with
    | error e => simp [fetchTopTrack, hg, hd]
    | ok data =>
      by_cases h : data.Tracks.Track.len = 0 <;> simp [fetchTopTrack, hg, hd, h]

theorem fetchLyrics_calls (env : Env) (trackName artistName : GoString) :
    (fetchLyrics env trackName artistName).calls = [.httpGet (lyricsURL trackName artistName)] := by
  cases hg : env.httpGet (lyricsURL trackName artistName) with
  | error e => simp [fetchLyrics, hg]
  | ok body =>
    cases hd : env.decodeLyrics body with
    | error e => simp [fetchLyrics, hg, hd]
    | ok data =>
      by_cases h : data.Message.Body.Lyrics.Lyrics = [] <;> simp [fetchLyrics, hg, hd, h]

theorem fetchArtistInfo_calls (env : Env) (artistName : GoString) :
    (fetchArtistInfo env artistName).calls = [.searchJSON (searchParams artistName)] := by
  cases hs : env.searchJSON (searchParams artistName) <;> simp [fetchArtistInfo, hs]

/-- The charts client never panics: the index at line 96 is guarded by the length test. -/
theorem fetchTopTrack_no_panic (env : Env) (region : GoString) (p : Panic) :
    (fetchTopTrack env region).result ≠ .panic p := by
  cases hg : env.httpGet (chartsURL region) with
  | error e => simp [fetchTopTrack, hg]
  | ok body =>
    cases hd : env.decodeCharts body with
    | error e => simp [fetchTopTrack, hg, hd]
    | ok data =>
      cases hl : data.Tracks.Track.toList with
      | nil => simp [fetchTopTrack, hg, hd, GoSlice.len, hl]
      | cons t ts => simp [fetchTopTrack, hg, hd, GoSlice.len, GoSlice.index, hl]

/-- The lyrics client never panics. -/
theorem fetchLyrics_no_panic (env : Env) (trackName artistName : GoString) (p : Panic) :
    (fetchLyrics env trackName artistName).result ≠ .panic p := by
  cases hg : env.httpGet (lyricsURL trackName artistName) with
  | error e => simp [fetchLyrics, hg]
  | ok body =>
    cases hd : env.decodeLyrics body with
    | error e => simp [fetchLyrics, hg, hd]
    | ok data =>
      by_cases h : data.Message.Body.Lyrics.Lyrics = [] <;> simp [fetchLyrics, hg, hd, h]

/-- What the charts client returns once the answer decoded. -/
theorem fetchTopTrack_decoded (env : Env) (region body : GoString) (data : ChartsData)
    (hget : env.httpGet (chartsURL region) = .ok body)
    (hdec : env.decodeCharts body = .ok data) :
    (fetchTopTrack env region).result =
      match data.Tracks.Track.toList with
      | [] => .error (.errorf (ascii "no top tracks found for the region " ++ region))
      | t :: _ => .ok t := by
  unfold fetchTopTrack
  simp only [hget, hdec]
  cases hl : data.Tracks.Track.toList with
  | nil => simp [GoSlice.len, hl, noTopTracks_message]
  | cons t ts => simp [GoSlice.len, GoSlice.index, hl]

/-- What the lyrics client returns once the answer decoded. -/
theorem fetchLyrics_decoded (env : Env) (trackName artistName body : GoString)
    (data : LyricsData)
    (hget : env.httpGet (lyricsURL trackName artistName) = .ok body)
    (hdec : env.decodeLyrics body = .ok data) :
    (fetchLyrics env trackName artistName).result =
      if data.Message.Body.Lyrics.Lyrics = [] then
        .error (.errorf (ascii "lyrics not found for the track " ++ trackName ++ ascii " by " ++
          artistName))
      else .ok data.Message.Body.Lyrics.Lyrics := by
  unfold fetchLyrics
  simp only [hget, hdec]
  by_cases h : data.Message.Body.Lyrics.Lyrics = [] <;> simp [h, lyricsNotFound_message]

/-- The handler when the charts client returns an error. -/
theorem handler_of_top_error (env : Env) (w : ResponseWriter) (r : Request) (e : GoError)
    (h : (fetchTopTrack env (r.URLQuery.Get (ascii "region"))).result = .error e) :
    topTrackHandler env w r =
      ⟨httpError w e.Error StatusInternalServerError, none,
        [.httpGet (chartsURL (r.URLQuery.Get (ascii "region")))]⟩ := by
  simp [topTrackHandler, h, fetchTopTrack_calls]

/-- The handler when the lyrics client returns an error. -/
theorem handler_of_lyrics_error (env : Env) (w : ResponseWriter) (r : Request)
    (t : LastFmTrack) (e : GoError)
    (h1 : (fetchTopTrack env (r.URLQuery.Get (ascii "region"))).result = .ok t)
    (h2 : (fetchLyrics env t.Name t.Artist).result = .error e) :
    topTrackHandler env w r =
      ⟨httpError w e.Error StatusInternalServerError, none,
        [.httpGet (chartsURL (r.URLQuery.Get (ascii "region"))),
         .httpGet (lyricsURL t.Name t.Artist)]⟩ := by
  simp [topTrackHandler, h1, h2, fetchTopTrack_calls, fetchLyrics_calls]

/-- The handler when the image client returns an error. -/
theorem handler_of_artist_error (env : Env) (w : ResponseWriter) (r : Request)
    (t : LastFmTrack) (l : GoString) (e : GoError)
    (h1 : (fetchTopTrack env (r.URLQuery.Get (ascii "region"))).result = .ok t)
    (h2 : (fetchLyrics env t.Name t.Artist).result = .ok l)
    (h3 : (fetchArtistInfo env t.Artist).result = .error e) :
    topTrackHandler env w r =
      ⟨httpError w e.Error StatusInternalServerError, none,
        [.httpGet (chartsURL (r.URLQuery.Get (ascii "region"))),
         .httpGet (lyricsURL t.Name t.Artist), .searchJSON (searchParams t.Artist)]⟩ := by
  simp [topTrackHandler, h1, h2, h3, fetchTopTrack_calls, fetchLyrics_calls,
    fetchArtistInfo_calls]

/-- The handler when the image client panics. -/
theorem handler_of_artist_panic (env : Env) (w : ResponseWriter) (r : Request)
    (t : LastFmTrack) (l : GoString) (p : Panic)
    (h1 : (fetchTopTrack env (r.URLQuery.Get (ascii "region"))).result = .ok t)
    (h2 : (fetchLyrics env t.Name t.Artist).result = .ok l)
    (h3 : (fetchArtistInfo env t.Artist).result = .panic p) :
    topTrackHandler env w r =
      ⟨w, some p,
        [.httpGet (chartsURL (r.URLQuery.Get (ascii "region"))),
         .httpGet (lyricsURL t.Name t.Artist), .searchJSON (searchParams t.Artist)]⟩ := by
  simp [topTrackHandler, h1, h2, h3, fetchTopTrack_calls, fetchLyrics_calls,
    fetchArtistInfo_calls]

/-- The handler when all three clients return a value. -/
theorem handler_of_all_ok (env : Env) (w : ResponseWriter) (r : Request)
    (t : LastFmTrack) (l : GoString) (a : ArtistInfo)
    (h1 : (fetchTopTrack env (r.URLQuery.Get (ascii "region"))).result = .ok t)
    (h2 : (fetchLyrics env t.Name t.Artist).result = .ok l)
    (h3 : (fetchArtistInfo env t.Artist).result = .ok a) :
    topTrackHandler env w r =
      ⟨jsonEncode env (w.setHeader (ascii "Content-Type") (ascii "application/json"))
          { TopTrack := t, Lyrics := l, Artist := a }, none,
        [.httpGet (chartsURL (r.URLQuery.Get (ascii "region"))),
         .httpGet (lyricsURL t.Name t.Artist), .searchJSON (searchParams t.Artist)]⟩ := by
  simp [topTrackHandler, h1, h2, h3, fetchTopTrack_calls, fetchLyrics_calls,
    fetchArtistInfo_calls]

/-- Every run of the handler on a fresh writer ends in one of five ways. -/
theorem handler_cases (env : Env) (r : Request) :
    (∃ e, (fetchTopTrack env (r.URLQuery.Get (ascii "region"))).result = .error e ∧
      (topTrackHandler env .fresh r).w = errorReply e.Error ∧
      (topTrackHandler env .fresh r).panicked = none) ∨
    (∃ t e, (fetchTopTrack env (r.URLQuery.Get (ascii "region"))).result = .ok t ∧
      (fetchLyrics env t.Name t.Artist).result = .error e ∧
      (topTrackHandler env .fresh r).w = errorReply e.Error ∧
      (topTrackHandler env .fresh r).panicked = none) ∨
    (∃ t l e, (fetchTopTrack env (r.URLQuery.Get (ascii "region"))).result = .ok t ∧
      (fetchLyrics env t.Name t.Artist).result = .ok l ∧
      (fetchArtistInfo env t.Artist).result = .error e ∧
      (topTrackHandler env .fresh r).w = errorReply e.Error ∧
      (topTrackHandler env .fresh r).panicked = none) ∨
    (∃ t l p, (fetchTopTrack env (r.URLQuery.Get (ascii "region"))).result = .ok t ∧
      (fetchLyrics env t.Name t.Artist).result = .ok l ∧
      (fetchArtistInfo env t.Artist).result = .panic p ∧
      (topTrackHandler env .fresh r).w = .fresh ∧
      (topTrackHandler env .fresh r).panicked = some p) ∨
    (∃ t l a, (fetchTopTrack env (r.URLQuery.Get (ascii "region"))).result = .ok t ∧
      (fetchLyrics env t.Name t.Artist).result = .ok l ∧
      (fetchArtistInfo env t.Artist).result = .ok a ∧
      (topTrackHandler env .fresh r).w =
        successReply env { TopTrack := t, Lyrics := l, Artist := a } ∧
      (topTrackHandler env .fresh r).panicked = none) := by
  cases h1 : (fetchTopTrack env (r.URLQuery.Get (ascii "region"))).result with
  | panic p => exact absurd h1 (fetchTopTrack_no_panic env _ p)
  | error e =>
    refine Or.inl ⟨e, rfl, ?_, ?_⟩ <;> simp [handler_of_top_error env _ r e h1, httpError_fresh]
  | ok t =>
    cases h2 : (fetchLyrics env t.Name t.Artist).result with
    | panic p => exact absurd h2 (fetchLyrics_no_panic env _ _ p)
    | error e =>
      refine Or.inr (Or.inl ⟨t, e, rfl, h2, ?_, ?_⟩) <;>
        simp [handler_of_lyrics_error env _ r t e h1 h2, httpError_fresh]
    | ok l =>
      cases h3 : (fetchArtistInfo env t.Artist).result with
      | panic p =>
        refine Or.inr (Or.inr (Or.inr (Or.inl ⟨t, l, p, rfl, h2, h3, ?_, ?_⟩))) <;>
          simp [handler_of_artist_panic env _ r t l p h1 h2 h3]
      | error e =>
        refine Or.inr (Or.inr (Or.inl ⟨t, l, e, rfl, h2, h3, ?_, ?_⟩)) <;>
          simp [handler_of_artist_error env _ r t l e h1 h2 h3, httpError_fresh]
      | ok a =>
        refine Or.inr (Or.inr (Or.inr (Or.inr ⟨t, l, a, rfl, h2, h3, ?_, ?_⟩))) <;>
          simp [handler_of_all_ok env _ r t l a h1 h2 h3, jsonEncode_fresh]

/-- A message is contained in the body of its error reply. -/
theorem message_in_errorReply (msg : GoString) : msg <:+: (errorReply msg).body :=
  (List.prefix_append msg (ascii "\n")).isInfix

/-- An `errorf` error of the charts client is the empty-list error. -/
theorem fetchTopTrack_errorf (env : Env) (region msg : GoString)
    (h : (fetchTopTrack env region).result = .error (.errorf msg)) :
    msg = ascii "no top tracks found for the region " ++ region ∧
      ∃ body data, env.httpGet (chartsURL region) = .ok body ∧
        env.decodeCharts body = .ok data ∧ data.Tracks.Track.toList = [] := by
  cases hg : env.httpGet (chartsURL region) with
  | error e => simp [fetchTopTrack, hg] at h
  | ok body =>
    cases hd : env.decodeCharts body with
    | error e => simp [fetchTopTrack, hg, hd] at h
    | ok data =>
      have h2 := fetchTopTrack_decoded env region body data hg hd
      cases hl : data.Tracks.Track.toList with
      | nil =>
        rw [hl] at h2
        rw [h2] at h
        simp only [Outcome.error.injEq, GoError.errorf.injEq] at h
        exact ⟨h.symm, body, data, rfl, hd, hl⟩
      | cons t ts =>
        rw [hl] at h2
        rw [h2] at h
        simp at h

/-- An `errorf` error of the lyrics client is the empty-body error; a returned value is
never empty. -/
theorem fetchLyrics_errorf (env : Env) (trackName artistName : GoString) :
    (∀ msg, (fetchLyrics env trackName artistName).result = .error (.errorf msg) →
      msg = ascii "lyrics not found for the track " ++ trackName ++ ascii " by " ++ artistName ∧
      ∃ body data, env.httpGet (lyricsURL trackName artistName) = .ok body ∧
        env.decodeLyrics body = .ok data ∧ data.Message.Body.Lyrics.Lyrics = []) ∧
    (∀ l, (fetchLyrics env trackName artistName).result = .ok l → l ≠ []) := by
  cases hg : env.httpGet (lyricsURL trackName artistName) with
  | error e => simp [fetchLyrics, hg]
  | ok body =>
    cases hd : env.decodeLyrics body with
    | error e => simp [fetchLyrics, hg, hd]
    | ok data =>
      have h2 := fetchLyrics_decoded env trackName artistName body data hg hd
      by_cases hl : data.Message.Body.Lyrics.Lyrics = []
      · rw [if_pos hl] at h2
        rw [h2]
        refine ⟨fun msg h => ?_, fun l h => by simp at h⟩
        simp only [Outcome.error.injEq, GoError.errorf.injEq] at h
        exact ⟨h.symm, body, data, rfl, hd, hl⟩
      · rw [if_neg hl] at h2
        rw [h2]
        refine ⟨fun msg h => by simp at h, fun l h => ?_⟩
        simp only [Outcome.ok.injEq] at h
        exact h ▸ hl

/-! ## Top-track client -/

/-- Claim C2: when the charts answer decodes to a non-empty track list, `fetchTopTrack`
returns its first element unchanged and without error, and whenever the lyrics and image
clients succeed as well the handler replies with the success reply whose `top_track` is
exactly that element (its JSON text follows `"top_track":` in the body), never a later
one. -/
theorem fetchTopTrack_returns_first (env : Env) (r : Request) (region body : GoString)
    (data : ChartsData) (t : LastFmTrack) (later : List LastFmTrack)
    (hreg : r.URLQuery.Get (ascii "region") = region)
    (hget : env.httpGet (chartsURL region) = .ok body)
    (hdec : env.decodeCharts body = .ok data)
    (hlist : data.Tracks.Track.toList = t :: later) :
    (fetchTopTrack env region).result = .ok t ∧
    ∀ (l : GoString) (a : ArtistInfo),
      (fetchLyrics env t.Name t.Artist).result = .ok l →
      (fetchArtistInfo env t.Artist).result = .ok a →
      (topTrackHandler env .fresh r).w =
        successReply env { TopTrack := t, Lyrics := l, Artist := a } ∧
      (topTrackHandler env .fresh r).panicked = none ∧
      ∃ rest, (topTrackHandler env .fresh r).w.body =
        ascii "\x7b\"top_track\":" ++ encodeTrack env t ++ rest := by
  have h1 : (fetchTopTrack env region).result = .ok t := by
    rw [fetchTopTrack_decoded env region body data hget hdec, hlist]
  refine ⟨h1, fun l a h2 h3 => ?_⟩
  subst hreg
  have hw := handler_of_all_ok env .fresh r t l a h1 h2 h3
  rw [jsonEncode_fresh] at hw
  refine ⟨by rw [hw], by rw [hw], ?_⟩
  rw [hw]
  refine ⟨ascii ",\"lyrics\":" ++ env.jsonString l ++ ascii ",\"artist_info\":" ++
    encodeArtistInfo env a ++ ascii "\x7d" ++ ascii "\n", ?_⟩
  simp only [successReply, encodeResponse, List.append_assoc]

set_option maxRecDepth 100000 in
/-- Claim C2 at the scenario upstream, whose charts list is `songA, songB`: the client
returns `songA` and the handler's reply carries `songA`. -/
theorem fetchTopTrack_returns_first_witness :
    (fetchTopTrack scenarioEnv (ascii "US")).result = .ok songA ∧
    (topTrackHandler scenarioEnv .fresh (requestFor (ascii "US"))).w =
      successReply scenarioEnv
        { TopTrack := songA, Lyrics := ascii "La la la",
          Artist := { Name := ascii "Artist X", ImageURL := ascii "http://img/1.png",
                      SimilarTo := .null } } :=
  have h := fetchTopTrack_returns_first scenarioEnv (requestFor (ascii "US")) (ascii "US")
    (chartsURL (ascii "US")) { Tracks := { Track := .of [songA, songB] } } songA [songB]
    (by decide) rfl rfl rfl
  ⟨h.1, (h.2 (ascii "La la la")
    { Name := ascii "Artist X", ImageURL := ascii "http://img/1.png", SimilarTo := .null }
    (by decide) (by decide)).1⟩

/-- Claim C3: when the charts answer decodes to an empty track list, `fetchTopTrack`
returns the error whose message is exactly `no top tracks found for the region ` followed
by the region (any region, the empty one included), the handler replies 500 with a body
containing that message (for the region `US`: `no top tracks found for the region US`), and
this error is returned only when the decoded list is empty. -/
theorem fetchTopTrack_empty_list_error (env : Env) (r : Request) (region body : GoString)
    (data : ChartsData)
    (hreg : r.URLQuery.Get (ascii "region") = region)
    (hget : env.httpGet (chartsURL region) = .ok body)
    (hdec : env.decodeCharts body = .ok data)
    (hempty : data.Tracks.Track.toList = []) :
    (fetchTopTrack env region).result =
      .error (.errorf (ascii "no top tracks found for the region " ++ region)) ∧
    (GoError.errorf (ascii "no top tracks found for the region " ++ region)).Error =
      ascii "no top tracks found for the region " ++ region ∧
    (topTrackHandler env .fresh r).w =
      errorReply (ascii "no top tracks found for the region " ++ region) ∧
    (topTrackHandler env .fresh r).w.status = some 500 ∧
    (topTrackHandler env .fresh r).panicked = none ∧
    (ascii "no top tracks found for the region " ++ region) <:+:
      (topTrackHandler env .fresh r).w.body ∧
    (region = ascii "US" →
      ascii "no top tracks found for the region US" <:+:
        (topTrackHandler env .fresh r).w.body) ∧
    (∀ (env2 : Env) (region2 msg : GoString),
      (fetchTopTrack env2 region2).result = .error (.errorf msg) →
      msg = ascii "no top tracks found for the region " ++ region2 ∧
      ∃ body2 data2, env2.httpGet (chartsURL region2) = .ok body2 ∧
        env2.decodeCharts body2 = .ok data2 ∧ data2.Tracks.Track.toList = []) := by
  have h1 : (fetchTopTrack env region).result =
      .error (.errorf (ascii "no top tracks found for the region " ++ region)) := by
    rw [fetchTopTrack_decoded env region body data hget hdec, hempty]
  subst hreg
  have hw := handler_of_top_error env .fresh r _ h1
  rw [httpError_fresh] at hw
  have hin := message_in_errorReply
    (ascii "no top tracks found for the region " ++ r.URLQuery.Get (ascii "region"))
  refine ⟨h1, rfl, by rw [hw]; rfl, by rw [hw]; rfl, by rw [hw], by rw [hw]; exact hin, ?_,
    fun env2 region2 msg h => fetchTopTrack_errorf env2 region2 msg h⟩
  intro hus
  have e : ascii "no top tracks found for the region " ++ ascii "US" =
      ascii "no top tracks found for the region US" := by decide
  rw [hw]
  rw [hus, e] at hin
  rw [hus, e]
  exact hin

set_option maxRecDepth 100000 in
/-- Claim C3 at an upstream with an empty charts list and the region `US`. -/
theorem fetchTopTrack_empty_list_error_witness :
    (fetchTopTrack emptyChartsEnv (ascii "US")).result =
      .error (.errorf (ascii "no top tracks found for the region US")) ∧
    (topTrackHandler emptyChartsEnv .fresh (requestFor (ascii "US"))).w.status = some 500 ∧
    ascii "no top tracks found for the region US" <:+:
      (topTrackHandler emptyChartsEnv .fresh (requestFor (ascii "US"))).w.body :=
  have h := fetchTopTrack_empty_list_error emptyChartsEnv (requestFor (ascii "US"))
    (ascii "US") (chartsURL (ascii "US")) { Tracks := { Track := .of [] } }
    (by decide) rfl rfl rfl
  ⟨h.1, h.2.2.2.1, h.2.2.2.2.2.2.1 rfl⟩

/-! ## Lyrics client -/

/-- Claim C4: when the lyrics answer decodes to a non-empty lyrics body, `fetchLyrics`
returns exactly that string without error; when the track came from the charts client and
the image client succeeds, the handler's success reply has that string as `lyrics`; and
every success reply (status 200) of the handler has non-empty lyrics. -/
theorem fetchLyrics_returns_body (env : Env) (trackName artistName body : GoString)
    (data : LyricsData)
    (hget : env.httpGet (lyricsURL trackName artistName) = .ok body)
    (hdec : env.decodeLyrics body = .ok data)
    (hne : data.Message.Body.Lyrics.Lyrics ≠ []) :
    (fetchLyrics env trackName artistName).result = .ok data.Message.Body.Lyrics.Lyrics ∧
    (∀ (r : Request) (t : LastFmTrack) (a : ArtistInfo),
      (fetchTopTrack env (r.URLQuery.Get (ascii "region"))).result = .ok t →
      t.Name = trackName → t.Artist = artistName →
      (fetchArtistInfo env t.Artist).result = .ok a →
      (topTrackHandler env .fresh r).w =
        successReply env
          { TopTrack := t, Lyrics := data.Message.Body.Lyrics.Lyrics, Artist := a }) ∧
    (∀ (env2 : Env) (r2 : Request),
      (topTrackHandler env2 .fresh r2).w.status = some 200 →
      ∃ agg, (topTrackHandler env2 .fresh r2).w = successReply env2 agg ∧ agg.Lyrics ≠ []) := by
  have h1 : (fetchLyrics env trackName artistName).result =
      .ok data.Message.Body.Lyrics.Lyrics := by
    rw [fetchLyrics_decoded env trackName artistName body data hget hdec, if_neg hne]
  refine ⟨h1, ?_, ?_⟩
  · intro r t a ht hn ha h3
    subst hn ha
    have hw := handler_of_all_ok env .fresh r t _ a ht h1 h3
    rw [jsonEncode_fresh] at hw
    rw [hw]
  · intro env2 r2 hs
    rcases handler_cases env2 r2 with ⟨e, _, hw, _⟩ | ⟨t, e, _, _, hw, _⟩ |
      ⟨t, l, e, _, _, _, hw, _⟩ | ⟨t, l, p, _, _, _, hw, _⟩ | ⟨t, l, a, _, h2, _, hw, _⟩
    · rw [hw] at hs; simp [errorReply] at hs
    · rw [hw] at hs; simp [errorReply] at hs
    · rw [hw] at hs; simp [errorReply] at hs
    · rw [hw] at hs; simp [ResponseWriter.fresh] at hs
    · exact ⟨_, hw, (fetchLyrics_errorf env2 t.Name t.Artist).2 l h2⟩

set_option maxRecDepth 100000 in
/-- Claim C4 at the scenario upstream: the lyrics `La la la` are returned and replied
unchanged. -/
theorem fetchLyrics_returns_body_witness :
    (fetchLyrics scenarioEnv (ascii "Song A") (ascii "Artist X")).result =
      .ok (ascii "La la la") ∧
    (topTrackHandler scenarioEnv .fresh (requestFor (ascii "US"))).w =
      successReply scenarioEnv
        { TopTrack := songA, Lyrics := ascii "La la la",
          Artist := { Name := ascii "Artist X", ImageURL := ascii "http://img/1.png",
                      SimilarTo := .null } } :=
  have h := fetchLyrics_returns_body scenarioEnv (ascii "Song A") (ascii "Artist X")
    (lyricsURL (ascii "Song A") (ascii "Artist X"))
    { Message := { Body := { Lyrics := { Lyrics := ascii "La la la" } } } } rfl rfl (by decide)
  ⟨h.1, h.2.1 (requestFor (ascii "US")) songA
    { Name := ascii "Artist X", ImageURL := ascii "http://img/1.png", SimilarTo := .null }
    (by decide) (by decide) (by decide) (by decide)⟩

set_option maxRecDepth 100000 in
/-- Claim C5 as stated fails: with an empty lyrics body for the track `Song A` by
`Artist X`, the error message is `lyrics not found for the track Song A by Artist X`, not
`lyrics not found for track Song A by artist Artist X`, and the handler's body does not
contain the latter. -/
theorem fetchLyrics_message_counterexample :
    (fetchLyrics emptyLyricsEnv (ascii "Song A") (ascii "Artist X")).result =
      .error (.errorf (ascii "lyrics not found for the track Song A by Artist X")) ∧
    (fetchLyrics emptyLyricsEnv (ascii "Song A") (ascii "Artist X")).result ≠
      .error (.errorf (ascii "lyrics not found for track Song A by artist Artist X")) ∧
    (topTrackHandler emptyLyricsEnv .fresh (requestFor (ascii "US"))).w.status = some 500 ∧
    ¬ (ascii "lyrics not found for track Song A by artist Artist X" <:+:
      (topTrackHandler emptyLyricsEnv .fresh (requestFor (ascii "US"))).w.body) := by
  decide

/-- Claim C5, amended: when the lyrics answer decodes to an empty (or missing) lyrics body,
`fetchLyrics` returns the error whose message is exactly
`lyrics not found for the track X by Y`, with X the track name and Y the artist name, both
verbatim; when the track came from the charts client the handler replies 500 with a body
containing that message; and this error is returned only when the decoded body is the
empty string. -/
theorem fetchLyrics_empty_body_error (env : Env) (trackName artistName body : GoString)
    (data : LyricsData)
    (hget : env.httpGet (lyricsURL trackName artistName) = .ok body)
    (hdec : env.decodeLyrics body = .ok data)
    (hempty : data.Message.Body.Lyrics.Lyrics = []) :
    (fetchLyrics env trackName artistName).result =
      .error (.errorf (ascii "lyrics not found for the track " ++ trackName ++ ascii " by " ++
        artistName)) ∧
    (∀ (r : Request) (t : LastFmTrack),
      (fetchTopTrack env (r.URLQuery.Get (ascii "region"))).result = .ok t →
      t.Name = trackName → t.Artist = artistName →
      (topTrackHandler env .fresh r).w =
        errorReply (ascii "lyrics not found for the track " ++ trackName ++ ascii " by " ++
          artistName) ∧
      (topTrackHandler env .fresh r).w.status = some 500 ∧
      (ascii "lyrics not found for the track " ++ trackName ++ ascii " by " ++ artistName) <:+:
        (topTrackHandler env .fresh r).w.body) ∧
    (∀ (env2 : Env) (trackName2 artistName2 msg : GoString),
      (fetchLyrics env2 trackName2 artistName2).result = .error (.errorf msg) →
      msg = ascii "lyrics not found for the track " ++ trackName2 ++ ascii " by " ++
        artistName2 ∧
      ∃ body2 data2, env2.httpGet (lyricsURL trackName2 artistName2) = .ok body2 ∧
        env2.decodeLyrics body2 = .ok data2 ∧ data2.Message.Body.Lyrics.Lyrics = []) := by
  have h1 : (fetchLyrics env trackName artistName).result =
      .error (.errorf (ascii "lyrics not found for the track " ++ trackName ++ ascii " by " ++
        artistName)) := by
    rw [fetchLyrics_decoded env trackName artistName body data hget hdec, if_pos hempty]
  refine ⟨h1, ?_, fun env2 tn an msg h => (fetchLyrics_errorf env2 tn an).1 msg h⟩
  intro r t ht hn ha
  subst hn ha
  have hw := handler_of_lyrics_error env .fresh r t _ ht h1
  rw [httpError_fresh] at hw
  rw [hw]
  exact ⟨rfl, rfl, message_in_errorReply _⟩

set_option maxRecDepth 100000 in
/-- Claim C5, amended, at an upstream with an empty lyrics body. -/
theorem fetchLyrics_empty_body_error_witness :
    (fetchLyrics emptyLyricsEnv (ascii "Song A") (ascii "Artist X")).result =
      .error (.errorf (ascii "lyrics not found for the track " ++ ascii "Song A" ++
        ascii " by " ++ ascii "Artist X")) ∧
    (topTrackHandler emptyLyricsEnv .fresh (requestFor (ascii "US"))).w.status = some 500 :=
  have h := fetchLyrics_empty_body_error emptyLyricsEnv (ascii "Song A") (ascii "Artist X")
    (lyricsURL (ascii "Song A") (ascii "Artist X"))
    { Message := { Body := { Lyrics := { Lyrics := [] } } } } rfl rfl rfl
  ⟨h.1, (h.2.1 (requestFor (ascii "US")) songA (by decide) (by decide) (by decide)).2.1⟩

/-! ## Artist-image client -/

/-- The extraction on an answer of the expected shape. -/
theorem extractArtistInfo_wellShaped (artistName : GoString) (resp : List (GoString × JsonValue))
    (fields : List (GoString × JsonValue)) (rest : List JsonValue) (original : GoString)
    (hres : mapIndex resp (ascii "images_results") = .array (.object fields :: rest))
    (horig : mapIndex fields (ascii "original") = .string original) :
    extractArtistInfo artistName resp =
      .ok { Name := artistName, ImageURL := original, SimilarTo := .null } := by
  simp [extractArtistInfo, hres, assertArray, Outcome.bind, GoSlice.index, GoSlice.toList,
    assertObject, horig, assertString]

/-- The extraction never returns an error, and a returned value comes from an answer of
the expected shape. -/
theorem extractArtistInfo_result (artistName : GoString) (resp : List (GoString × JsonValue)) :
    (∀ e, extractArtistInfo artistName resp ≠ .error e) ∧
    (∀ a, extractArtistInfo artistName resp = .ok a →
      ∃ fields rest original,
        mapIndex resp (ascii "images_results") = .array (.object fields :: rest) ∧
        mapIndex fields (ascii "original") = .string original ∧
        a = { Name := artistName, ImageURL := original, SimilarTo := .null }) := by
  unfold extractArtistInfo
  cases h1 : mapIndex resp (ascii "images_results") with
  | array items =>
    cases items with
    | nil => simp [assertArray, Outcome.bind, GoSlice.index, GoSlice.toList]
    | cons first rest =>
      cases first with
      | object fields =>
        cases h2 : mapIndex fields (ascii "original") with
        | string s =>
          simp [assertArray, Outcome.bind, GoSlice.index, GoSlice.toList, assertObject, h2,
            assertString]
        | _ =>
          simp [assertArray, Outcome.bind, GoSlice.index, GoSlice.toList, assertObject, h2,
            assertString]
      | _ => simp [assertArray, Outcome.bind, GoSlice.index, GoSlice.toList, assertObject]
  | _ => simp [assertArray, Outcome.bind]

/-- A value returned by the image client: the given name, the first result's `original`,
and the nil slice of similar artists. -/
theorem fetchArtistInfo_ok (env : Env) (artistName : GoString) (a : ArtistInfo)
    (h : (fetchArtistInfo env artistName).result = .ok a) :
    ∃ resp fields rest original,
      env.searchJSON (searchParams artistName) = .ok resp ∧
      mapIndex resp (ascii "images_results") = .array (.object fields :: rest) ∧
      mapIndex fields (ascii "original") = .string original ∧
      a = { Name := artistName, ImageURL := original, SimilarTo := .null } := by
  cases hs : env.searchJSON (searchParams artistName) with
  | error e => simp [fetchArtistInfo, hs] at h
  | ok resp =>
    simp only [fetchArtistInfo, hs] at h
    obtain ⟨fields, rest, original, h1, h2, h3⟩ := (extractArtistInfo_result artistName resp).2 a h
    exact ⟨resp, fields, rest, original, rfl, h1, h2, h3⟩

/-- The image client on a decoded answer. -/
theorem fetchArtistInfo_decoded (env : Env) (artistName : GoString)
    (resp : List (GoString × JsonValue))
    (hs : env.searchJSON (searchParams artistName) = .ok resp) :
    (fetchArtistInfo env artistName).result = extractArtistInfo artistName resp := by
  simp [fetchArtistInfo, hs]

/-- Claim C7, on the code: for an image-search answer with an empty `images_results`, with
no `images_results`, with a first result that is not an object, or with no string
`original`, `fetchArtistInfo` does not return an error: it panics (index out of range, or
a failed interface conversion), and the handler, aborted by the panic, leaves the writer
untouched instead of replying 500. -/
theorem fetchArtistInfo_malformed_panics (env : Env) (artistName : GoString)
    (resp : List (GoString × JsonValue))
    (hs : env.searchJSON (searchParams artistName) = .ok resp) :
    (mapIndex resp (ascii "images_results") = .array [] →
      (fetchArtistInfo env artistName).result = .panic (.indexOutOfRange 0 0)) ∧
    (resp.lookup (ascii "images_results") = none →
      (fetchArtistInfo env artistName).result = .panic .interfaceConversion) ∧
    (∀ first rest, mapIndex resp (ascii "images_results") = .array (first :: rest) →
      (∀ fields, first ≠ .object fields) →
      (fetchArtistInfo env artistName).result = .panic .interfaceConversion) ∧
    (∀ fields rest, mapIndex resp (ascii "images_results") = .array (.object fields :: rest) →
      (∀ s, mapIndex fields (ascii "original") ≠ .string s) →
      (fetchArtistInfo env artistName).result = .panic .interfaceConversion) ∧
    (∀ (p : Panic) (r : Request) (t : LastFmTrack) (l : GoString),
      (fetchArtistInfo env artistName).result = .panic p →
      (fetchTopTrack env (r.URLQuery.Get (ascii "region"))).result = .ok t →
      t.Artist = artistName →
      (fetchLyrics env t.Name t.Artist).result = .ok l →
      (topTrackHandler env .fresh r).w = .fresh ∧
      (topTrackHandler env .fresh r).w.status = none ∧
      (topTrackHandler env .fresh r).panicked = some p) := by
  rw [fetchArtistInfo_decoded env artistName resp hs]
  refine ⟨?_, ?_, ?_, ?_, ?_⟩
  · intro h
    simp [extractArtistInfo, h, assertArray, Outcome.bind, GoSlice.index, GoSlice.toList,
      GoSlice.len]
  · intro h
    simp [extractArtistInfo, mapIndex, h, assertArray, Outcome.bind]
  · intro first rest h hno
    cases first with
    | object fields => exact absurd rfl (hno fields)
    | _ => simp [extractArtistInfo, h, assertArray, Outcome.bind, GoSlice.index,
        GoSlice.toList, assertObject]
  · intro fields rest h hno
    cases h2 : mapIndex fields (ascii "original") with
    | string s => exact absurd h2 (hno s)
    | _ => simp [extractArtistInfo, h, assertArray, Outcome.bind, GoSlice.index,
        GoSlice.toList, assertObject, h2, assertString]
  · intro p r t l hp ht ha hl
    subst ha
    rw [← fetchArtistInfo_decoded env t.Artist resp hs] at hp
    have hw := handler_of_artist_panic env .fresh r t l p ht hl hp
    rw [hw]
    exact ⟨rfl, rfl, rfl⟩

set_option maxRecDepth 100000 in
/-- Claim C7 at an image search without results: the client panics on the index and the
handler writes nothing. -/
theorem fetchArtistInfo_malformed_panics_witness :
    (fetchArtistInfo emptyImagesEnv (ascii "Artist X")).result =
      .panic (.indexOutOfRange 0 0) ∧
    (topTrackHandler emptyImagesEnv .fresh (requestFor (ascii "US"))).w.status = none ∧
    (topTrackHandler emptyImagesEnv .fresh (requestFor (ascii "US"))).panicked =
      some (.indexOutOfRange 0 0) :=
  have h := fetchArtistInfo_malformed_panics emptyImagesEnv (ascii "Artist X")
    (imageResults []) rfl
  have h5 := h.2.2.2.2 (.indexOutOfRange 0 0) (requestFor (ascii "US")) songA
    (ascii "La la la") (by decide) (by decide) (by decide) (by decide)
  ⟨h.1 (by rfl), h5.2.1, h5.2.2⟩

/-- Claim C8: for an image-search answer whose `images_results` is a non-empty list whose
first element is an object with a string `original`, `fetchArtistInfo` returns without
error the `ArtistInfo` with the given artist name, that first `original` as image URL
(later results are ignored) and the nil slice of similar artists, whose JSON text ends in
`"similar_to":null`; no value returned by the client, and no success reply of the handler,
has a `similar_to` other than nil. -/
theorem fetchArtistInfo_first_image (env : Env) (artistName : GoString)
    (resp : List (GoString × JsonValue)) (fields : List (GoString × JsonValue))
    (rest : List JsonValue) (original : GoString)
    (hs : env.searchJSON (searchParams artistName) = .ok resp)
    (hres : mapIndex resp (ascii "images_results") = .array (.object fields :: rest))
    (horig : mapIndex fields (ascii "original") = .string original) :
    (fetchArtistInfo env artistName).result =
      .ok { Name := artistName, ImageURL := original, SimilarTo := .null } ∧
    encodeArtistInfo env { Name := artistName, ImageURL := original, SimilarTo := .null } =
      ascii "\x7b\"name\":" ++ env.jsonString artistName ++ ascii ",\"image_url\":" ++
        env.jsonString original ++ ascii ",\"similar_to\":" ++ ascii "null" ++ ascii "\x7d" ∧
    (∀ (env2 : Env) (artistName2 : GoString) (a : ArtistInfo),
      (fetchArtistInfo env2 artistName2).result = .ok a →
      a.SimilarTo = .null ∧ a.SimilarTo.toList = []) ∧
    (∀ (env2 : Env) (r2 : Request),
      (topTrackHandler env2 .fresh r2).w.status = some 200 →
      ∃ agg, (topTrackHandler env2 .fresh r2).w = successReply env2 agg ∧
        agg.Artist.SimilarTo = .null) := by
  refine ⟨?_, rfl, ?_, ?_⟩
  · rw [fetchArtistInfo_decoded env artistName resp hs]
    exact extractArtistInfo_wellShaped artistName resp fields rest original hres horig
  · intro env2 an a h
    obtain ⟨_, _, _, _, _, _, _, ha⟩ := fetchArtistInfo_ok env2 an a h
    subst ha
    exact ⟨rfl, rfl⟩
  · intro env2 r2 hst
    rcases handler_cases env2 r2 with ⟨e, _, hw, _⟩ | ⟨t, e, _, _, hw, _⟩ |
      ⟨t, l, e, _, _, _, hw, _⟩ | ⟨t, l, p, _, _, _, hw, _⟩ | ⟨t, l, a, _, _, h3, hw, _⟩
    · rw [hw] at hst; simp [errorReply] at hst
    · rw [hw] at hst; simp [errorReply] at hst
    · rw [hw] at hst; simp [errorReply] at hst
    · rw [hw] at hst; simp [ResponseWriter.fresh] at hst
    · obtain ⟨_, _, _, _, _, _, _, ha⟩ := fetchArtistInfo_ok env2 t.Artist a h3
      exact ⟨_, hw, by rw [ha]⟩

set_option maxRecDepth 100000 in
/-- Claim C8 at the end-to-end scenario of the specification: of the two image results the
first is returned, and the reply body is the document the specification gives. -/
theorem fetchArtistInfo_first_image_witness :
    (fetchArtistInfo scenarioEnv (ascii "Artist X")).result =
      .ok { Name := ascii "Artist X", ImageURL := ascii "http://img/1.png",
            SimilarTo := .null } ∧
    (topTrackHandler scenarioEnv .fresh (requestFor (ascii "US"))).w.body =
      ascii "\x7b\"top_track\":\x7b\"name\":\"Song A\",\"artist\":\"Artist X\",\"image\":null\x7d,\"lyrics\":\"La la la\",\"artist_info\":\x7b\"name\":\"Artist X\",\"image_url\":\"http://img/1.png\",\"similar_to\":null\x7d\x7d\n" :=
  ⟨(fetchArtistInfo_first_image scenarioEnv (ascii "Artist X")
      (imageResults [ascii "http://img/1.png", ascii "http://img/2.png"])
      [(ascii "original", .string (ascii "http://img/1.png"))]
      [.object [(ascii "original", .string (ascii "http://img/2.png"))]]
      (ascii "http://img/1.png") rfl (by rfl) (by rfl)).1,
    by decide⟩

/-! ## Aggregation handler -/

set_option maxRecDepth 100000 in
/-- Claim C1, on the code, at the failing input: the charts and lyrics clients succeed and
the image search answers with a map without `images_results`.  `fetchArtistInfo` then
neither succeeds nor returns an error, and the handler replies neither with the success
reply nor with status 500: the writer is left untouched. -/
theorem handler_abort_without_reply :
    (fetchTopTrack noImagesKeyEnv (ascii "US")).result = .ok songA ∧
    (fetchLyrics noImagesKeyEnv songA.Name songA.Artist).result = .ok (ascii "La la la") ∧
    (fetchArtistInfo noImagesKeyEnv songA.Artist).result = .panic .interfaceConversion ∧
    (topTrackHandler noImagesKeyEnv .fresh (requestFor (ascii "US"))).w = .fresh ∧
    (topTrackHandler noImagesKeyEnv .fresh (requestFor (ascii "US"))).w.status ≠ some 500 ∧
    (topTrackHandler noImagesKeyEnv .fresh (requestFor (ascii "US"))).w.body = [] ∧
    (topTrackHandler noImagesKeyEnv .fresh (requestFor (ascii "US"))).panicked =
      some .interfaceConversion := by
  decide

/-- The first five bytes of the two URLs differ, so the charts and lyrics calls are
different calls. -/
theorem chartsURL_ne_lyricsURL (region trackName artistName : GoString) :
    chartsURL region ≠ lyricsURL trackName artistName := by
  intro h
  have h2 := congrArg (List.take 5) h
  rw [chartsURL_eq, lyricsURL_eq] at h2
  have e1 : ascii "http://ws.audioscrobbler.com/2.0/?method=geo.gettoptracks&country=" =
      ascii "http:" ++ ascii "//ws.audioscrobbler.com/2.0/?method=geo.gettoptracks&country=" := by
    decide
  have e2 : ascii "https://api.musixmatch.com/ws/1.1/matcher.lyrics.get?format=json&apikey=YOUR_SERPAPI_API_KEY&q_track=" =
      ascii "https" ++ ascii "://api.musixmatch.com/ws/1.1/matcher.lyrics.get?format=json&apikey=YOUR_SERPAPI_API_KEY&q_track=" := by
    decide
  have l1 : (ascii "http:").length = 5 := by decide
  have l2 : (ascii "https").length = 5 := by decide
  rw [e1, e2] at h2
  simp only [List.append_assoc] at h2
  rw [List.take_left' l1, List.take_left' l2] at h2
  exact absurd h2 (by decide)

/-- The outbound calls of one run of the handler, named by the URL and parameter builders
of the three clients. -/
theorem handler_calls_by_builders (env : Env) (r : Request) :
    (∀ e, (fetchTopTrack env (r.URLQuery.Get (ascii "region"))).result = .error e →
      (topTrackHandler env .fresh r).calls =
        [.httpGet (chartsURL (r.URLQuery.Get (ascii "region")))]) ∧
    (∀ t, (fetchTopTrack env (r.URLQuery.Get (ascii "region"))).result = .ok t →
      (topTrackHandler env .fresh r).calls <+:
        [.httpGet (chartsURL (r.URLQuery.Get (ascii "region"))),
         .httpGet (lyricsURL t.Name t.Artist), .searchJSON (searchParams t.Artist)] ∧
      (∀ e, (fetchLyrics env t.Name t.Artist).result = .error e →
        (topTrackHandler env .fresh r).calls =
          [.httpGet (chartsURL (r.URLQuery.Get (ascii "region"))),
           .httpGet (lyricsURL t.Name t.Artist)]) ∧
      (∀ l, (fetchLyrics env t.Name t.Artist).result = .ok l →
        (topTrackHandler env .fresh r).calls =
          [.httpGet (chartsURL (r.URLQuery.Get (ascii "region"))),
           .httpGet (lyricsURL t.Name t.Artist), .searchJSON (searchParams t.Artist)])) ∧
    (topTrackHandler env .fresh r).calls.Nodup ∧
    ((topTrackHandler env .fresh r).w.status = some 200 →
      ∃ agg, (topTrackHandler env .fresh r).w = successReply env agg ∧
        agg.Artist.Name = agg.TopTrack.Artist) := by
  have key : ∀ t : LastFmTrack,
      [Call.httpGet (chartsURL (r.URLQuery.Get (ascii "region"))),
        Call.httpGet (lyricsURL t.Name t.Artist), Call.searchJSON (searchParams t.Artist)].Nodup := by
    intro t
    simp [chartsURL_ne_lyricsURL]
  cases h1 : (fetchTopTrack env (r.URLQuery.Get (ascii "region"))).result with
  | panic p => exact absurd h1 (fetchTopTrack_no_panic env _ p)
  | error e =>
    have hw := handler_of_top_error env .fresh r e h1
    rw [hw]
    simp [httpError, ResponseWriter.Write, ResponseWriter.WriteHeader,
      ResponseWriter.setHeader, ResponseWriter.fresh, StatusInternalServerError]
  | ok t =>
    cases h2 : (fetchLyrics env t.Name t.Artist).result with
    | panic p => exact absurd h2 (fetchLyrics_no_panic env _ _ p)
    | error e =>
      have hw := handler_of_lyrics_error env .fresh r t e h1 h2
      rw [hw]
      refine ⟨by simp, ?_, ?_, ?_⟩
      · intro t2 ht2
        simp only [Outcome.ok.injEq] at ht2
        subst ht2
        refine ⟨⟨[.searchJSON (searchParams t.Artist)], by simp⟩, fun _ _ => rfl, ?_⟩
        intro l hl
        rw [h2] at hl
        simp at hl
      · simp [chartsURL_ne_lyricsURL]
      · simp [httpError, ResponseWriter.Write, ResponseWriter.WriteHeader,
          ResponseWriter.setHeader, ResponseWriter.fresh, StatusInternalServerError]
    | ok l =>
      have hcalls : (topTrackHandler env .fresh r).calls =
          [.httpGet (chartsURL (r.URLQuery.Get (ascii "region"))),
           .httpGet (lyricsURL t.Name t.Artist), .searchJSON (searchParams t.Artist)] := by
        cases h3 : (fetchArtistInfo env t.Artist).result with
        | panic p => rw [handler_of_artist_panic env .fresh r t l p h1 h2 h3]
        | error e => rw [handler_of_artist_error env .fresh r t l e h1 h2 h3]
        | ok a => rw [handler_of_all_ok env .fresh r t l a h1 h2 h3]
      refine ⟨by simp, ?_, by rw [hcalls]; exact key t, ?_⟩
      · intro t2 ht2
        simp only [Outcome.ok.injEq] at ht2
        subst ht2
        rw [hcalls]
        refine ⟨List.prefix_refl _, ?_, fun _ _ => rfl⟩
        intro e he
        rw [h2] at he
        simp at he
      · intro hst
        cases h3 : (fetchArtistInfo env t.Artist).result with
        | panic p =>
          rw [handler_of_artist_panic env .fresh r t l p h1 h2 h3] at hst
          simp [ResponseWriter.fresh] at hst
        | error e =>
          rw [handler_of_artist_error env .fresh r t l e h1 h2 h3, httpError_fresh] at hst
          simp [errorReply] at hst
        | ok a =>
          rw [handler_of_all_ok env .fresh r t l a h1 h2 h3, jsonEncode_fresh]
          obtain ⟨_, _, _, _, _, _, _, ha⟩ := fetchArtistInfo_ok env t.Artist a h3
          exact ⟨_, rfl, by rw [ha]⟩

/-! ## Query strings -/

/-- Bytes that need no escape are none of the bytes with a meaning in a query string. -/
theorem unreserved_plain (c : Byte) (h : shouldEscape c = false) :
    c ≠ 37 ∧ c ≠ 43 ∧ c ≠ 38 ∧ c ≠ 61 ∧ c ≠ 35 ∧ c ≠ 32 ∧ c ≠ 59 ∧ c ≠ 63 := by
  refine ⟨?_, ?_, ?_, ?_, ?_, ?_, ?_, ?_⟩ <;>
    (intro hc; rw [hc] at h; revert h; decide)

/-- The hexadecimal digits are plain bytes, are recognised, and give their value back. -/
theorem upperhex_digit : ∀ n, n < 16 →
    shouldEscape (upperhex n) = false ∧ ishex (upperhex n) = true ∧ unhex (upperhex n) = n := by
  decide

/-- The escape of a byte contains no separator of a query string and no space. -/
theorem escapeByte_clean (c b : Byte) (hb : b ∈ escapeByte c) :
    b ≠ 38 ∧ b ≠ 61 ∧ b ≠ 35 ∧ b ≠ 32 ∧ b ≠ 59 ∧ b ≠ 63 := by
  unfold escapeByte at hb
  have hd : c.val / 16 < 16 := by have := c.isLt; omega
  have hm : c.val % 16 < 16 := Nat.mod_lt _ (by decide)
  by_cases hs : shouldEscape c = true
  · rw [if_pos hs] at hb
    by_cases h32 : c = 32
    · rw [if_pos h32] at hb
      simp only [List.mem_singleton] at hb
      subst hb
      decide
    · rw [if_neg h32] at hb
      simp only [List.mem_cons, List.mem_singleton, List.not_mem_nil, or_false] at hb
      rcases hb with hb | hb | hb
      · subst hb; decide
      · have := unreserved_plain b (hb ▸ (upperhex_digit _ hd).1)
        exact ⟨this.2.2.1, this.2.2.2.1, this.2.2.2.2.1, this.2.2.2.2.2.1, this.2.2.2.2.2.2⟩
      · have := unreserved_plain b (hb ▸ (upperhex_digit _ hm).1)
        exact ⟨this.2.2.1, this.2.2.2.1, this.2.2.2.2.1, this.2.2.2.2.2.1, this.2.2.2.2.2.2⟩
  · rw [if_neg hs] at hb
    simp only [List.mem_singleton] at hb
    subst hb
    have := unreserved_plain b (by simpa using hs)
    exact ⟨this.2.2.1, this.2.2.2.1, this.2.2.2.2.1, this.2.2.2.2.2.1, this.2.2.2.2.2.2⟩

/-- The two digits of a `%XX` triple give the byte back. -/
theorem hex_value (c : Byte) :
    (Fin.ofNat (unhex (upperhex (c.val / 16)) * 16 + unhex (upperhex (c.val % 16))) : Byte) = c := by
  have hd : c.val / 16 < 16 := by have := c.isLt; omega
  have hm : c.val % 16 < 16 := Nat.mod_lt _ (by decide)
  rw [(upperhex_digit _ hd).2.2, (upperhex_digit _ hm).2.2]
  have e : c.val / 16 * 16 + c.val % 16 = c.val := by omega
  rw [e]
  apply Fin.ext
  simp [Fin.ofNat]

theorem QueryUnescape_cons (c : Byte) (rest : GoString) :
    QueryUnescape (c :: rest) =
      if c = 37 then
        match rest with
        | h1 :: h2 :: rest2 =>
          if ishex h1 ∧ ishex h2 then
            (QueryUnescape rest2).map (fun t => Fin.ofNat (unhex h1 * 16 + unhex h2) :: t)
          else none
        | _ => none
      else if c = 43 then (QueryUnescape rest).map (fun t => 32 :: t)
      else (QueryUnescape rest).map (fun t => c :: t) := by
  cases rest with
  | nil => rfl
  | cons h1 r =>
    cases r with
    | nil => rfl
    | cons h2 r2 => rfl

theorem isEscapedForm_cons (c : Byte) (rest : GoString) :
    isEscapedForm (c :: rest) =
      if c = 37 then
        match rest with
        | h1 :: h2 :: rest2 => ishex h1 && ishex h2 && isEscapedForm rest2
        | _ => false
      else (c = 43 || !shouldEscape c) && isEscapedForm rest := by
  cases rest with
  | nil => rfl
  | cons h1 r =>
    cases r with
    | nil => rfl
    | cons h2 r2 => rfl

/-- Unescaping the escape of a byte followed by `rest` gives the byte followed by the
unescape of `rest`. -/
theorem QueryUnescape_escapeByte (c : Byte) (rest : GoString) :
    QueryUnescape (escapeByte c ++ rest) = (QueryUnescape rest).map (fun t => c :: t) := by
  have hd : c.val / 16 < 16 := by have := c.isLt; omega
  have hm : c.val % 16 < 16 := Nat.mod_lt _ (by decide)
  unfold escapeByte
  by_cases hs : shouldEscape c = true
  · rw [if_pos hs]
    by_cases h32 : c = 32
    · rw [if_pos h32]
      subst h32
      simp [QueryUnescape_cons]
    · rw [if_neg h32]
      simp [QueryUnescape_cons, (upperhex_digit _ hd).2.1, (upperhex_digit _ hm).2.1, hex_value]
  · rw [if_neg hs]
    have := unreserved_plain c (by simpa using hs)
    simp [QueryUnescape_cons, this.1, this.2.1]

/-- Query-decoding an escaped string gives the string back. -/
theorem QueryUnescape_QueryEscape (s : GoString) : QueryUnescape (QueryEscape s) = some s := by
  induction s with
  | nil => rfl
  | cons c s ih =>
    have : QueryEscape (c :: s) = escapeByte c ++ QueryEscape s := by
      simp [QueryEscape]
    rw [this, QueryUnescape_escapeByte, show QueryUnescape (QueryEscape s) = some s from ih]
    rfl

/-- Escaped strings contain no `&`, `=`, `#`, space, `;` or `?`. -/
theorem QueryEscape_clean (s : GoString) (b : Byte) (hb : b ∈ QueryEscape s) :
    b ≠ 38 ∧ b ≠ 61 ∧ b ≠ 35 ∧ b ≠ 32 ∧ b ≠ 59 ∧ b ≠ 63 := by
  simp only [QueryEscape, List.mem_flatMap] at hb
  obtain ⟨c, _, hc⟩ := hb
  exact escapeByte_clean c b hc

/-- Escaped strings have the escaped form: no `%` stands for itself. -/
theorem QueryEscape_escapedForm (s : GoString) : isEscapedForm (QueryEscape s) = true := by
  induction s with
  | nil => rfl
  | cons c s ih =>
    have hd : c.val / 16 < 16 := by have := c.isLt; omega
    have hm : c.val % 16 < 16 := Nat.mod_lt _ (by decide)
    have : QueryEscape (c :: s) = escapeByte c ++ QueryEscape s := by
      simp [QueryEscape]
    rw [this]
    unfold escapeByte
    by_cases hs : shouldEscape c = true
    · rw [if_pos hs]
      by_cases h32 : c = 32
      · rw [if_pos h32]
        simp [isEscapedForm_cons, ih]
      · rw [if_neg h32]
        simp [isEscapedForm_cons, ih, (upperhex_digit _ hd).2.1, (upperhex_digit _ hm).2.1]
    · rw [if_neg hs]
      have h2 := unreserved_plain c (by simpa using hs)
      simp [isEscapedForm_cons, ih, h2.1, hs]

/-- The separators do not occur in an escaped string. -/
theorem QueryEscape_not_mem (s : GoString) :
    (38 : Byte) ∉ QueryEscape s ∧ (61 : Byte) ∉ QueryEscape s ∧ (35 : Byte) ∉ QueryEscape s ∧
    (32 : Byte) ∉ QueryEscape s ∧ (59 : Byte) ∉ QueryEscape s ∧ (63 : Byte) ∉ QueryEscape s :=
  ⟨fun h => (QueryEscape_clean s _ h).1 rfl, fun h => (QueryEscape_clean s _ h).2.1 rfl,
   fun h => (QueryEscape_clean s _ h).2.2.1 rfl, fun h => (QueryEscape_clean s _ h).2.2.2.1 rfl,
   fun h => (QueryEscape_clean s _ h).2.2.2.2.1 rfl,
   fun h => (QueryEscape_clean s _ h).2.2.2.2.2 rfl⟩

theorem cutByte_of_not_mem (sep : Byte) (s : GoString) (h : sep ∉ s) :
    cutByte sep s = (s, []) := by
  induction s with
  | nil => rfl
  | cons c s ih =>
    have hc : c ≠ sep := fun e => h (e ▸ List.mem_cons_self _ _)
    have hs : sep ∉ s := fun e => h (List.mem_cons_of_mem _ e)
    simp [cutByte, hc, ih hs]

theorem cutByte_append (sep : Byte) (a b : GoString) (h : sep ∉ a) :
    cutByte sep (a ++ sep :: b) = (a, b) := by
  induction a with
  | nil => simp [cutByte]
  | cons c a ih =>
    have hc : c ≠ sep := fun e => h (e ▸ List.mem_cons_self _ _)
    have hs : sep ∉ a := fun e => h (List.mem_cons_of_mem _ e)
    simp [cutByte, hc, ih hs]

theorem splitBytes_of_not_mem (sep : Byte) (s : GoString) (h : sep ∉ s) :
    splitBytes sep s = [s] := by
  induction s with
  | nil => rfl
  | cons c s ih =>
    have hc : c ≠ sep := fun e => h (e ▸ List.mem_cons_self _ _)
    have hs : sep ∉ s := fun e => h (List.mem_cons_of_mem _ e)
    simp [splitBytes, hc, ih hs]

theorem splitBytes_append (sep : Byte) (a b : GoString) (h : sep ∉ a) :
    splitBytes sep (a ++ sep :: b) = a :: splitBytes sep b := by
  induction a with
  | nil => simp [splitBytes]
  | cons c a ih =>
    have hc : c ≠ sep := fun e => h (e ▸ List.mem_cons_self _ _)
    have hs : sep ∉ a := fun e => h (List.mem_cons_of_mem _ e)
    simp [splitBytes, hc, ih hs]

/-- A setting `key=<escaped value>` is read back as the key and the value. -/
theorem parseSetting_escaped (key value : GoString) (h61 : (61 : Byte) ∉ key)
    (h59 : (59 : Byte) ∉ key) (hkey : QueryUnescape key = some key) :
    parseSetting (key ++ 61 :: QueryEscape value) = some (key, value) := by
  have hne : key ++ 61 :: QueryEscape value ≠ [] := by simp
  have hsemi : (59 : Byte) ∉ key ++ 61 :: QueryEscape value := by
    simp only [List.mem_append, List.mem_cons, not_or]
    exact ⟨h59, by decide, (QueryEscape_not_mem value).2.2.2.2.1⟩
  unfold parseSetting
  rw [if_neg (by simp only [not_or]; exact ⟨hne, hsemi⟩), cutByte_append 61 key _ h61]
  simp only [hkey, QueryUnescape_QueryEscape]

set_option maxRecDepth 100000 in
/-- The lyrics URL, cut at its separators. -/
theorem lyricsURL_parts (trackName artistName : GoString) :
    lyricsURL trackName artistName =
      ascii "https://api.musixmatch.com/ws/1.1/matcher.lyrics.get" ++ 63 ::
        (ascii "format=json" ++ 38 :: (ascii "apikey=YOUR_SERPAPI_API_KEY" ++ 38 ::
          ((ascii "q_track" ++ 61 :: QueryEscape trackName) ++ 38 ::
            (ascii "q_artist" ++ 61 :: QueryEscape artistName)))) := by
  rw [lyricsURL_eq]
  have e1 : ascii "https://api.musixmatch.com/ws/1.1/matcher.lyrics.get?format=json&apikey=YOUR_SERPAPI_API_KEY&q_track=" =
      ascii "https://api.musixmatch.com/ws/1.1/matcher.lyrics.get" ++ 63 ::
        (ascii "format=json" ++ 38 :: (ascii "apikey=YOUR_SERPAPI_API_KEY" ++ 38 ::
          (ascii "q_track" ++ [61]))) := by decide
  have e2 : ascii "&q_artist=" = 38 :: (ascii "q_artist" ++ [61]) := by decide
  rw [e1, e2]
  simp only [List.append_assoc, List.cons_append, List.nil_append]

set_option maxRecDepth 100000 in
/-- The query string of the lyrics URL. -/
theorem rawQuery_lyricsURL (trackName artistName : GoString) :
    rawQuery (lyricsURL trackName artistName) =
      ascii "format=json" ++ 38 :: (ascii "apikey=YOUR_SERPAPI_API_KEY" ++ 38 ::
        ((ascii "q_track" ++ 61 :: QueryEscape trackName) ++ 38 ::
          (ascii "q_artist" ++ 61 :: QueryEscape artistName))) := by
  have hT := QueryEscape_not_mem trackName
  have hA := QueryEscape_not_mem artistName
  have h35 : (35 : Byte) ∉ lyricsURL trackName artistName := by
    rw [lyricsURL_parts]
    simp only [List.mem_append, List.mem_cons, not_or]
    exact ⟨by decide, by decide, by decide, by decide, by decide, by decide,
      ⟨by decide, by decide, hT.2.2.1⟩, by decide, by decide, by decide, hA.2.2.1⟩
  unfold rawQuery
  rw [cutByte_of_not_mem 35 _ h35, lyricsURL_parts, cutByte_append 63 _ _ (by decide)]

set_option maxRecDepth 100000 in
/-- Reading the query string of the lyrics URL gives four settings, the last two with the
track name and the artist name as values. -/
theorem ParseQuery_lyricsURL (trackName artistName : GoString) :
    ParseQuery (rawQuery (lyricsURL trackName artistName)) =
      [(ascii "format", ascii "json"), (ascii "apikey", apiKey),
       (ascii "q_track", trackName), (ascii "q_artist", artistName)] := by
  have hT := QueryEscape_not_mem trackName
  have hA := QueryEscape_not_mem artistName
  have n1 : (38 : Byte) ∉ ascii "q_track" ++ 61 :: QueryEscape trackName := by
    simp only [List.mem_append, List.mem_cons, not_or]
    exact ⟨by decide, by decide, hT.1⟩
  have n2 : (38 : Byte) ∉ ascii "q_artist" ++ 61 :: QueryEscape artistName := by
    simp only [List.mem_append, List.mem_cons, not_or]
    exact ⟨by decide, by decide, hA.1⟩
  rw [rawQuery_lyricsURL]
  unfold ParseQuery
  rw [splitBytes_append 38 _ _ (by decide), splitBytes_append 38 _ _ (by decide),
    splitBytes_append 38 _ _ n1, splitBytes_of_not_mem 38 _ n2]
  have p1 : parseSetting (ascii "format=json") = some (ascii "format", ascii "json") := by
    decide
  have p2 : parseSetting (ascii "apikey=YOUR_SERPAPI_API_KEY") = some (ascii "apikey", apiKey) := by
    decide
  have p3 := parseSetting_escaped (ascii "q_track") trackName (by decide) (by decide)
    (by decide)
  have p4 := parseSetting_escaped (ascii "q_artist") artistName (by decide) (by decide)
    (by decide)
  simp only [List.filterMap_cons, List.filterMap_nil, p1, p2, p3, p4]

/-- Claim C6: for every track name and artist name (any bytes), the URL requested by
`fetchLyrics` carries `url.QueryEscape` of each value after `q_track=` and `q_artist=`; the
escaped values contain no `&`, `=`, `#` or space, and no `%` other than the start of a
`%XX` triple; the query string reads back as exactly the four settings `format`, `apikey`,
`q_track`, `q_artist`; and query-decoding the two escaped values gives the track name and
the artist name back. -/
theorem lyricsURL_inputs_escaped (env : Env) (trackName artistName : GoString) :
    (fetchLyrics env trackName artistName).calls =
      [.httpGet
        (ascii "https://api.musixmatch.com/ws/1.1/matcher.lyrics.get?format=json&apikey=YOUR_SERPAPI_API_KEY&q_track=" ++
          QueryEscape trackName ++ ascii "&q_artist=" ++ QueryEscape artistName)] ∧
    (∀ b ∈ QueryEscape trackName, b ≠ 38 ∧ b ≠ 61 ∧ b ≠ 35 ∧ b ≠ 32) ∧
    (∀ b ∈ QueryEscape artistName, b ≠ 38 ∧ b ≠ 61 ∧ b ≠ 35 ∧ b ≠ 32) ∧
    isEscapedForm (QueryEscape trackName) = true ∧
    isEscapedForm (QueryEscape artistName) = true ∧
    ParseQuery (rawQuery (lyricsURL trackName artistName)) =
      [(ascii "format", ascii "json"), (ascii "apikey", ascii "YOUR_SERPAPI_API_KEY"),
       (ascii "q_track", trackName), (ascii "q_artist", artistName)] ∧
    QueryUnescape (QueryEscape trackName) = some trackName ∧
    QueryUnescape (QueryEscape artistName) = some artistName := by
  refine ⟨?_, ?_, ?_, QueryEscape_escapedForm _, QueryEscape_escapedForm _,
    ParseQuery_lyricsURL _ _, QueryUnescape_QueryEscape _, QueryUnescape_QueryEscape _⟩
  · rw [fetchLyrics_calls, lyricsURL_eq]
  · intro b hb
    have h := QueryEscape_clean trackName b hb
    exact ⟨h.1, h.2.1, h.2.2.1, h.2.2.2.1⟩
  · intro b hb
    have h := QueryEscape_clean artistName b hb
    exact ⟨h.1, h.2.1, h.2.2.1, h.2.2.2.1⟩

set_option maxRecDepth 100000 in
/-- Claim C9: the URL requested by `fetchTopTrack` is the fixed text ending in `&country=`,
then the region byte for byte, then `&api_key=YOUR_SERPAPI_API_KEY&format=json`; the
handler passes the `region` query value on unchanged.  For the region `US` the query
string has the settings `method`, `country`, `api_key`, `format`; for the region
`US&format=xml` it has a fifth setting, and for `US#frag` only the first two, whereas the
lyrics URL always has its four settings. -/
theorem chartsURL_region_verbatim (env : Env) (region : GoString) :
    (fetchTopTrack env region).calls =
      [.httpGet
        (ascii "http://ws.audioscrobbler.com/2.0/?method=geo.gettoptracks&country=" ++ region ++
          ascii "&api_key=YOUR_SERPAPI_API_KEY&format=json")] ∧
    (∀ r : Request, (topTrackHandler env .fresh r).calls.head? =
      some (.httpGet
        (ascii "http://ws.audioscrobbler.com/2.0/?method=geo.gettoptracks&country=" ++
          r.URLQuery.Get (ascii "region") ++
          ascii "&api_key=YOUR_SERPAPI_API_KEY&format=json"))) ∧
    ParseQuery (rawQuery (chartsURL (ascii "US"))) =
      [(ascii "method", ascii "geo.gettoptracks"), (ascii "country", ascii "US"),
       (ascii "api_key", ascii "YOUR_SERPAPI_API_KEY"), (ascii "format", ascii "json")] ∧
    ParseQuery (rawQuery (chartsURL (ascii "US&format=xml"))) =
      [(ascii "method", ascii "geo.gettoptracks"), (ascii "country", ascii "US"),
       (ascii "format", ascii "xml"),
       (ascii "api_key", ascii "YOUR_SERPAPI_API_KEY"), (ascii "format", ascii "json")] ∧
    ParseQuery (rawQuery (chartsURL (ascii "US#frag"))) =
      [(ascii "method", ascii "geo.gettoptracks"), (ascii "country", ascii "US")] ∧
    (∃ region2, (ParseQuery (rawQuery (chartsURL region2))).map Prod.fst ≠
      [ascii "method", ascii "country", ascii "api_key", ascii "format"]) ∧
    (∀ trackName artistName : GoString,
      (ParseQuery (rawQuery (lyricsURL trackName artistName))).map Prod.fst =
        [ascii "format", ascii "apikey", ascii "q_track", ascii "q_artist"]) := by
  refine ⟨by rw [fetchTopTrack_calls, chartsURL_eq], ?_, by decide, by decide, by decide,
    ⟨ascii "US&format=xml", by decide⟩, ?_⟩
  · intro r
    rw [← chartsURL_eq]
    cases h1 : (fetchTopTrack env (r.URLQuery.Get (ascii "region"))).result with
    | panic p => exact absurd h1 (fetchTopTrack_no_panic env _ p)
    | error e => rw [handler_of_top_error env .fresh r e h1]; rfl
    | ok t =>
      cases h2 : (fetchLyrics env t.Name t.Artist).result with
      | panic p => exact absurd h2 (fetchLyrics_no_panic env _ _ p)
      | error e => rw [handler_of_lyrics_error env .fresh r t e h1 h2]; rfl
      | ok l =>
        cases h3 : (fetchArtistInfo env t.Artist).result with
        | panic p => rw [handler_of_artist_panic env .fresh r t l p h1 h2 h3]; rfl
        | error e => rw [handler_of_artist_error env .fresh r t l e h1 h2 h3]; rfl
        | ok a => rw [handler_of_all_ok env .fresh r t l a h1 h2 h3]; rfl
  · intro trackName artistName
    rw [ParseQuery_lyricsURL]
    rfl

/-! ## The sequence of outbound calls -/

/-- The parameters of the image search, written out. -/
theorem searchParams_eq (artistName : GoString) :
    searchParams artistName =
      [(ascii "q", artistName), (ascii "tbm", ascii "isch"), (ascii "num", ascii "1"),
       (ascii "safe", ascii "active"), (ascii "api_key", ascii "YOUR_SERPAPI_API_KEY")] := by
  rfl

/-- Claim C10: the outbound calls of one run of the handler, in order, are a start of
`charts(region), lyrics(track.Name, track.Artist), image(track.Artist)`, where `track` is
what the charts client returned.  The charts call is the GET of the charts URL with the
region; the lyrics call is the GET of the lyrics URL whose `q_track` and `q_artist` values
are the escapes of exactly `track.Name` and `track.Artist` (they read back as these two
strings); the image call is the search whose `q` is exactly `track.Artist`.  Only the
charts call is issued when the charts client fails, only the first two when the lyrics
client fails, all three otherwise; no call occurs twice; and in every success reply
`artist_info.name` equals `top_track.artist`. -/
theorem handler_call_sequence (env : Env) (r : Request) :
    (∀ e, (fetchTopTrack env (r.URLQuery.Get (ascii "region"))).result = .error e →
      (topTrackHandler env .fresh r).calls =
        [.httpGet
          (ascii "http://ws.audioscrobbler.com/2.0/?method=geo.gettoptracks&country=" ++
            r.URLQuery.Get (ascii "region") ++
            ascii "&api_key=YOUR_SERPAPI_API_KEY&format=json")]) ∧
    (∀ t, (fetchTopTrack env (r.URLQuery.Get (ascii "region"))).result = .ok t →
      (topTrackHandler env .fresh r).calls <+:
        [.httpGet
          (ascii "http://ws.audioscrobbler.com/2.0/?method=geo.gettoptracks&country=" ++
            r.URLQuery.Get (ascii "region") ++
            ascii "&api_key=YOUR_SERPAPI_API_KEY&format=json"),
         .httpGet
          (ascii "https://api.musixmatch.com/ws/1.1/matcher.lyrics.get?format=json&apikey=YOUR_SERPAPI_API_KEY&q_track=" ++
            QueryEscape t.Name ++ ascii "&q_artist=" ++ QueryEscape t.Artist),
         .searchJSON
          [(ascii "q", t.Artist), (ascii "tbm", ascii "isch"), (ascii "num", ascii "1"),
           (ascii "safe", ascii "active"), (ascii "api_key", ascii "YOUR_SERPAPI_API_KEY")]] ∧
      (∀ e, (fetchLyrics env t.Name t.Artist).result = .error e →
        (topTrackHandler env .fresh r).calls =
          [.httpGet
            (ascii "http://ws.audioscrobbler.com/2.0/?method=geo.gettoptracks&country=" ++
              r.URLQuery.Get (ascii "region") ++
              ascii "&api_key=YOUR_SERPAPI_API_KEY&format=json"),
           .httpGet
            (ascii "https://api.musixmatch.com/ws/1.1/matcher.lyrics.get?format=json&apikey=YOUR_SERPAPI_API_KEY&q_track=" ++
              QueryEscape t.Name ++ ascii "&q_artist=" ++ QueryEscape t.Artist)]) ∧
      (∀ l, (fetchLyrics env t.Name t.Artist).result = .ok l →
        (topTrackHandler env .fresh r).calls =
          [.httpGet
            (ascii "http://ws.audioscrobbler.com/2.0/?method=geo.gettoptracks&country=" ++
              r.URLQuery.Get (ascii "region") ++
              ascii "&api_key=YOUR_SERPAPI_API_KEY&format=json"),
           .httpGet
            (ascii "https://api.musixmatch.com/ws/1.1/matcher.lyrics.get?format=json&apikey=YOUR_SERPAPI_API_KEY&q_track=" ++
              QueryEscape t.Name ++ ascii "&q_artist=" ++ QueryEscape t.Artist),
           .searchJSON
            [(ascii "q", t.Artist), (ascii "tbm", ascii "isch"), (ascii "num", ascii "1"),
             (ascii "safe", ascii "active"),
             (ascii "api_key", ascii "YOUR_SERPAPI_API_KEY")]]) ∧
      ParseQuery (rawQuery
          (ascii "https://api.musixmatch.com/ws/1.1/matcher.lyrics.get?format=json&apikey=YOUR_SERPAPI_API_KEY&q_track=" ++
            QueryEscape t.Name ++ ascii "&q_artist=" ++ QueryEscape t.Artist)) =
        [(ascii "format", ascii "json"), (ascii "apikey", ascii "YOUR_SERPAPI_API_KEY"),
         (ascii "q_track", t.Name), (ascii "q_artist", t.Artist)] ∧
      QueryUnescape (QueryEscape t.Name) = some t.Name ∧
      QueryUnescape (QueryEscape t.Artist) = some t.Artist) ∧
    (topTrackHandler env .fresh r).calls.Nodup ∧
    ((topTrackHandler env .fresh r).w.status = some 200 →
      ∃ agg, (topTrackHandler env .fresh r).w = successReply env agg ∧
        agg.Artist.Name = agg.TopTrack.Artist) := by
  obtain ⟨h1, h2, h3, h4⟩ := handler_calls_by_builders env r
  refine ⟨?_, ?_, h3, h4⟩
  · intro e he
    rw [← chartsURL_eq]
    exact h1 e he
  · intro t ht
    obtain ⟨ha, hb, hc⟩ := h2 t ht
    rw [← chartsURL_eq, ← lyricsURL_eq, ← searchParams_eq]
    exact ⟨ha, hb, hc, ParseQuery_lyricsURL _ _, QueryUnescape_QueryEscape _,
      QueryUnescape_QueryEscape _⟩

set_option maxRecDepth 100000 in
/-- Claim C10 at the end-to-end scenario: the three calls, with the escaped track name and
artist in the lyrics URL and the artist as the `q` of the image search. -/
theorem handler_call_sequence_scenario :
    (topTrackHandler scenarioEnv .fresh (requestFor (ascii "US"))).calls =
      [.httpGet
        (ascii "http://ws.audioscrobbler.com/2.0/?method=geo.gettoptracks&country=US&api_key=YOUR_SERPAPI_API_KEY&format=json"),
       .httpGet
        (ascii "https://api.musixmatch.com/ws/1.1/matcher.lyrics.get?format=json&apikey=YOUR_SERPAPI_API_KEY&q_track=Song+A&q_artist=Artist+X"),
       .searchJSON
        [(ascii "q", ascii "Artist X"), (ascii "tbm", ascii "isch"), (ascii "num", ascii "1"),
         (ascii "safe", ascii "active"), (ascii "api_key", ascii "YOUR_SERPAPI_API_KEY")]] ∧
    (topTrackHandler emptyLyricsEnv .fresh (requestFor (ascii "US"))).calls.length = 2 ∧
    (topTrackHandler emptyChartsEnv .fresh (requestFor (ascii "US"))).calls.length = 1 := by
  have h := (handler_call_sequence scenarioEnv (requestFor (ascii "US"))).2.1 songA
    (by decide)
  have h3 := h.2.2.1 (ascii "La la la") (by decide)
  refine ⟨?_, by decide, by decide⟩
  rw [h3]
  decide

end TopTrack
